import Mathlib

/-!
# Verification of the discharge-planning pipeline

A shallow embedding, in Lean 4, of the core of the
`dischargePlanningAgent` repository:

* `src/services/openai_service.py` — section parsing (`_parse_sections`),
  retry loop (`_call_openai_with_retry`), QC-response JSON extraction
  (`review_discharge_plan`);
* `src/services/db_operations.py` — the persistence layer
  (`create_discharge_plan`, `update_plan_section`, `get_qc_flags`,
  `resolve_qc_flag`, `check_qc_clearance`, workflow/patient updates);
* `src/app/streamlit_app.py` — the workflow operations
  (`render_generate_tab`, `render_qc_tab` re-run, `_apply_qc_suggestion`,
  `render_finalize_tab`, plan-editor actions).

Python strings are embedded as `List Char`; Python `str.find`,
slicing, `in`, and `strip` are modelled by `findSub`, `slice`,
`containsSub`, `stripChars` below.  Machine-external collaborators
(the OpenAI transport, `json.loads`, the `re.sub` sanitiser) are
function parameters of the operations that invoke them.
-/

namespace Discharge

/-! ## Python string primitives on `List Char` -/

/-- Characters of a string literal (Python `str` as a list of chars). -/
def chars (s : String) : List Char := s.toList

/-- Python slice `s[a:b]` for `0 ≤ a ≤ b` (clamped; empty when `b ≤ a`). -/
def slice (s : List Char) (a b : Nat) : List Char := (s.drop a).take (b - a)

/-- True when `pat` occurs in `s` at position `p` (Python `s.find(pat) could return p`). -/
def occursAtB (s pat : List Char) (p : Nat) : Bool := pat.isPrefixOf (s.drop p)

/-- Number of positions of `s` at which `pat` occurs. -/
def occCount (pat s : List Char) : Nat :=
  (List.range (s.length + 1)).countP (fun p => occursAtB s pat p)

/-- Worker for `findSub`: scan suffixes left to right carrying the
current absolute position. -/
def findSubAux (m : List Char) : List Char → Nat → Option Nat
  | t, i =>
    if m.isPrefixOf t then some i
    else
      match t with
      | [] => none
      | _ :: rest => findSubAux m rest (i + 1)

/-- Python `s.find(pat)`: index of the first occurrence (`none` for `-1`). -/
def findSub (pat s : List Char) : Option Nat := findSubAux pat s 0

/-- Python `pat in s`. -/
def containsSub (pat s : List Char) : Bool := (findSub pat s).isSome

/-- Python `s.find(pat, start)`: first occurrence at or after `start`. -/
def findFrom (pat s : List Char) (start : Nat) : Option Nat :=
  (findSub pat (s.drop start)).map (· + start)

/-- Python whitespace (the ASCII characters stripped by `str.strip()`). -/
def isPyWS (c : Char) : Bool :=
  c = ' ' || c = '\t' || c = '\n' || c = '\r' || c = '\x0b' || c = '\x0c'

/-- Python `s.strip()`. -/
def stripChars (s : List Char) : List Char :=
  ((s.dropWhile isPyWS).reverse.dropWhile isPyWS).reverse

/-! ### Search lemmas -/

theorem occursAtB_append (X Y m : List Char) :
    occursAtB (X ++ (m ++ Y)) m X.length = true := by
  simp only [occursAtB, List.drop_left]
  exact List.isPrefixOf_iff_prefix.mpr (List.prefix_append m Y)

theorem occursAtB_le_of_ne_nil {t m : List Char} {p : Nat} (hm : m ≠ [])
    (h : occursAtB t m p = true) : p ≤ t.length := by
  by_contra hgt
  push_neg at hgt
  have hdrop : t.drop p = [] := List.drop_eq_nil_of_le (Nat.le_of_lt hgt)
  rw [occursAtB, hdrop] at h
  exact hm (List.prefix_nil.mp (List.isPrefixOf_iff_prefix.mp h))

theorem findSubAux_eq_some_of_first {m : List Char} :
    ∀ (t : List Char) (i p : Nat), occursAtB t m p = true →
      (∀ q, q < p → occursAtB t m q = false) →
      findSubAux m t i = some (i + p) := by
  intro t
  induction t with
  | nil =>
    intro i p hocc hfirst
    have hp0 : p = 0 := by
      by_contra hne
      have h0 : occursAtB [] m 0 = false := hfirst 0 (Nat.pos_of_ne_zero hne)
      have : occursAtB ([] : List Char) m p = occursAtB ([] : List Char) m 0 := by
        simp [occursAtB]
      rw [this, h0] at hocc
      exact Bool.false_ne_true hocc
    subst hp0
    simp only [occursAtB, List.drop_nil] at hocc
    simp [findSubAux, hocc]
  | cons c rest ih =>
    intro i p hocc hfirst
    cases p with
    | zero =>
      simp only [occursAtB, List.drop_zero] at hocc
      simp [findSubAux, hocc]
    | succ p' =>
      have h0 : occursAtB (c :: rest) m 0 = false := hfirst 0 (Nat.succ_pos p')
      simp only [occursAtB, List.drop_zero] at h0
      rw [findSubAux]
      simp only [h0]
      have hocc' : occursAtB rest m p' = true := by
        simpa [occursAtB] using hocc
      have hfirst' : ∀ q, q < p' → occursAtB rest m q = false := by
        intro q hq
        have := hfirst (q + 1) (Nat.succ_lt_succ hq)
        simpa [occursAtB] using this
      have harith : i + 1 + p' = i + (p' + 1) := by omega
      have := ih (i + 1) p' hocc' hfirst'
      rw [this, harith]
      simp

theorem findSub_eq_some_of_first {t m : List Char} {p : Nat}
    (hocc : occursAtB t m p = true)
    (hfirst : ∀ q, q < p → occursAtB t m q = false) :
    findSub m t = some p := by
  have := findSubAux_eq_some_of_first t 0 p hocc hfirst
  simpa [findSub] using this

theorem findSubAux_sound {m : List Char} :
    ∀ (t : List Char) (i j : Nat), findSubAux m t i = some j →
      ∃ p, j = i + p ∧ occursAtB t m p = true := by
  intro t
  induction t with
  | nil =>
    intro i j h
    rw [findSubAux] at h
    by_cases hpre : m.isPrefixOf ([] : List Char)
    · simp only [hpre, if_true, Option.some.injEq] at h
      exact ⟨0, by omega, by simp [occursAtB, hpre]⟩
    · simp [hpre] at h
  | cons c rest ih =>
    intro i j h
    rw [findSubAux] at h
    by_cases hpre : m.isPrefixOf (c :: rest)
    · simp only [hpre, if_true, Option.some.injEq] at h
      exact ⟨0, by omega, by simp [occursAtB, hpre, ← h]⟩
    · simp only [hpre, if_false] at h
      obtain ⟨p, hp, hocc⟩ := ih (i + 1) j h
      exact ⟨p + 1, by omega, by simpa [occursAtB] using hocc⟩

theorem findSubAux_isSome_of_occ {m : List Char} :
    ∀ (t : List Char) (i p : Nat), occursAtB t m p = true →
      (findSubAux m t i).isSome = true := by
  intro t
  induction t with
  | nil =>
    intro i p hocc
    have : m.isPrefixOf ([] : List Char) = true := by
      simpa [occursAtB] using hocc
    simp [findSubAux, this]
  | cons c rest ih =>
    intro i p hocc
    rw [findSubAux]
    by_cases hpre : m.isPrefixOf (c :: rest)
    · simp [hpre]
    · simp only [hpre, if_false]
      cases p with
      | zero =>
        simp only [occursAtB, List.drop_zero] at hocc
        exact absurd hocc hpre
      | succ p' =>
        exact ih (i + 1) p' (by simpa [occursAtB] using hocc)

/-- A list containing two distinct elements has length at least two. -/
theorem two_le_length_of_mem {l : List Nat} {a b : Nat}
    (ha : a ∈ l) (hb : b ∈ l) (hne : a ≠ b) : 2 ≤ l.length := by
  have hb' : b ∈ l.erase a := (List.mem_erase_of_ne (Ne.symm hne)).mpr hb
  have h1 : 1 ≤ (l.erase a).length :=
    List.length_pos.mpr (List.ne_nil_of_mem hb')
  have h2 : (l.erase a).length = l.length - 1 := List.length_erase_of_mem ha
  omega

/-- If a nonempty pattern occurs exactly once in `t`, any two occurrence
positions agree. -/
theorem occ_unique_of_count_one {t m : List Char} {p q : Nat} (hm : m ≠ [])
    (h1 : occCount m t = 1) (hp : occursAtB t m p = true)
    (hq : occursAtB t m q = true) : p = q := by
  by_contra hne
  have hpmem : p ∈ List.range (t.length + 1) :=
    List.mem_range.mpr (Nat.lt_succ_of_le (occursAtB_le_of_ne_nil hm hp))
  have hqmem : q ∈ List.range (t.length + 1) :=
    List.mem_range.mpr (Nat.lt_succ_of_le (occursAtB_le_of_ne_nil hm hq))
  have hpf : p ∈ (List.range (t.length + 1)).filter (fun r => occursAtB t m r) :=
    List.mem_filter.mpr ⟨hpmem, hp⟩
  have hqf : q ∈ (List.range (t.length + 1)).filter (fun r => occursAtB t m r) :=
    List.mem_filter.mpr ⟨hqmem, hq⟩
  have h2 := two_le_length_of_mem hpf hqf hne
  rw [occCount, List.countP_eq_length_filter] at h1
  omega

/-- First-occurrence computation for a pattern that occurs exactly once:
`find` returns the position just after the prefix `X`. -/
theorem findSub_of_count_one (X Y m : List Char) (hm : m ≠ [])
    (h1 : occCount m (X ++ (m ++ Y)) = 1) :
    findSub m (X ++ (m ++ Y)) = some X.length := by
  have hocc := occursAtB_append X Y m
  refine findSub_eq_some_of_first hocc ?_
  intro q hq
  by_contra hqt
  have hqt' : occursAtB (X ++ (m ++ Y)) m q = true := by
    cases h : occursAtB (X ++ (m ++ Y)) m q
    · exact absurd h hqt
    · rfl
  have := occ_unique_of_count_one hm h1 hqt' hocc
  omega

theorem containsSub_of_occ {t m : List Char} {p : Nat}
    (h : occursAtB t m p = true) : containsSub m t = true := by
  simpa [containsSub, findSub] using findSubAux_isSome_of_occ t 0 p h

theorem not_occ_of_not_containsSub {t m : List Char}
    (h : containsSub m t = false) (p : Nat) : occursAtB t m p = false := by
  cases hocc : occursAtB t m p
  · rfl
  · rw [containsSub_of_occ hocc] at h
    exact absurd h (by simp)

/-! ### Slice lemmas -/

theorem slice_middle (A B C : List Char) (a b : Nat)
    (ha : a = A.length) (hb : b = A.length + B.length) :
    slice (A ++ (B ++ C)) a b = B := by
  subst ha hb
  rw [slice, List.drop_left]
  have : A.length + B.length - A.length = B.length := by omega
  rw [this, List.take_left]

theorem slice_to_end (A B : List Char) (a : Nat) (ha : a = A.length) :
    slice (A ++ B) a (A ++ B).length = B := by
  subst ha
  rw [slice, List.drop_left, List.length_append]
  have : A.length + B.length - A.length = B.length := by omega
  rw [this, List.take_length]

/-! ## `_parse_sections` (src/services/openai_service.py:171-212)

The Python loop walks the six canonical section names in order, pairing
each upper-case marker name with its `str.title()` form (the dictionary
key): `"MEDICATIONS".title() = "Medications"`, …,
`"FOLLOW-UPS".title() = "Follow-Ups"`, `"TEACH-BACK".title() = "Teach-Back"`. -/

/-- The six section names with their `str.title()` dictionary keys, in
the fixed order of `section_names` in `_parse_sections`. -/
def section_names : List (String × String) :=
  [("MEDICATIONS", "Medications"),
   ("WARNING SIGNS", "Warning Signs"),
   ("MOBILITY", "Mobility"),
   ("DIET", "Diet"),
   ("FOLLOW-UPS", "Follow-Ups"),
   ("TEACH-BACK", "Teach-Back")]

/-- The marker string `f"==={section_name}==="`. -/
def markerOf (nm : String) : List Char := chars ("===" ++ nm ++ "===")

/-- The placeholder stored when a marker is absent:
`f"[{section_name.title()} content not generated]"`. -/
def placeholderOf (title : String) : List Char :=
  chars ("[" ++ title ++ " content not generated]")

/-- One pass of the `for i, section_name in enumerate(section_names)` loop:
locate the marker, slice up to the next section marker (or the end of the
text), `strip` the content; absent markers yield the placeholder. -/
def parseEntries (t : List Char) : List (String × String) → List (String × List Char)
  | [] => []
  | (nm, title) :: rest =>
    let marker := markerOf nm
    let value :=
      match findSub marker t with
      | some st =>
        -- start_idx = response_text.find(marker) + len(marker)
        let start := st + marker.length
        -- end_idx: position of the next section marker, or end of text
        let endIdx :=
          match rest with
          | [] => t.length
          | (nm2, _) :: _ =>
            match findSub (markerOf nm2) t with
            | some e => e
            | none => t.length
        stripChars (slice t start endIdx)
      | none => placeholderOf title
    (title, value) :: parseEntries t rest

/-- Python `dict` assignment `d[k] = v`: replace an existing binding,
else append a new one (dicts preserve insertion order). -/
def dictInsert {α : Type} (d : List (String × α)) (k : String) (v : α) :
    List (String × α) :=
  match d with
  | [] => [(k, v)]
  | (k', v') :: rest => if k' = k then (k, v) :: rest else (k', v') :: dictInsert rest k v

/-- Model of `_parse_sections`: build the `sections` dict in loop order, then the
defensive `if len(sections) != 6: raise Exception(...)` check. -/
def parse_sections (t : List Char) : Except String (List (String × List Char)) :=
  let sections :=
    (parseEntries t section_names).foldl (fun d kv => dictInsert d kv.1 kv.2) []
  if sections.length = 6 then .ok sections
  else .error "Expected 6 sections"

/-- Dictionary lookup (Python `d[k]`), defaulting to `[]`. -/
def dictGet {α : Type} [Inhabited α] (d : List (String × α)) (k : String) : α :=
  match d.find? (fun kv => kv.1 == k) with
  | some kv => kv.2
  | none => default

theorem dictInsert_eq_append {α : Type} (d : List (String × α)) (k : String)
    (v : α) (h : ∀ kv ∈ d, kv.1 ≠ k) : dictInsert d k v = d ++ [(k, v)] := by
  induction d with
  | nil => rfl
  | cons kv rest ih =>
    have hk : kv.1 ≠ k := h kv (List.mem_cons_self kv rest)
    rw [dictInsert]
    simp only [hk, if_false, List.cons_append]
    rw [ih (fun kv' hkv' => h kv' (List.mem_cons_of_mem kv hkv'))]

theorem foldl_dictInsert_eq {α : Type} (es d : List (String × α))
    (h : (d.map Prod.fst ++ es.map Prod.fst).Nodup) :
    es.foldl (fun acc kv => dictInsert acc kv.1 kv.2) d = d ++ es := by
  induction es generalizing d with
  | nil => simp
  | cons kv rest ih =>
    have hnotin : ∀ kv' ∈ d, kv'.1 ≠ kv.1 := by
      intro kv' hkv' heq
      have h1 : kv'.1 ∈ d.map Prod.fst := List.mem_map_of_mem Prod.fst hkv'
      have h2 : kv.1 ∈ (kv :: rest).map Prod.fst := by simp
      have := List.disjoint_of_nodup_append h
      exact this h1 (heq ▸ h2)
    rw [List.foldl_cons, dictInsert_eq_append d kv.1 kv.2 hnotin]
    have h' : ((d ++ [kv]).map Prod.fst ++ rest.map Prod.fst).Nodup := by
      simp only [List.map_append, List.map_cons] at h ⊢
      simpa [List.append_assoc] using h
    rw [ih (d ++ [kv]) h']
    simp

/-- The canonical dictionary keys, in insertion order. -/
def canonicalTitles : List String :=
  ["Medications", "Warning Signs", "Mobility", "Diet", "Follow-Ups", "Teach-Back"]

theorem parseEntries_keys (t : List Char) :
    (parseEntries t section_names).map Prod.fst = canonicalTitles := by
  simp [parseEntries, section_names, canonicalTitles]

theorem parseEntries_length (t : List Char) :
    (parseEntries t section_names).length = 6 := by
  have := congrArg List.length (parseEntries_keys t)
  simpa [canonicalTitles] using this

theorem parse_sections_ok (t : List Char) :
    parse_sections t = .ok (parseEntries t section_names) := by
  rw [parse_sections]
  rw [foldl_dictInsert_eq (parseEntries t section_names) []
    (by rw [List.map_nil, List.nil_append, parseEntries_keys]; decide)]
  simp [parseEntries_length]

theorem parseEntries_placeholder (t : List Char) (nm title : String)
    (hmem : (nm, title) ∈ section_names)
    (hnone : findSub (markerOf nm) t = none) :
    dictGet (parseEntries t section_names) title = placeholderOf title := by
  simp only [section_names, List.mem_cons, List.not_mem_nil, or_false,
    Prod.mk.injEq] at hmem
  rcases hmem with ⟨rfl, rfl⟩ | ⟨rfl, rfl⟩ | ⟨rfl, rfl⟩ | ⟨rfl, rfl⟩ |
    ⟨rfl, rfl⟩ | ⟨rfl, rfl⟩ <;>
    simp [parseEntries, section_names, dictGet, hnone]

/-- C4: for every input string, section parsing returns normally with a
map of exactly six entries, one per canonical section name with no
duplicates; every canonical name whose marker is absent maps to the
literal placeholder naming that section, and the defensive
`Expected 6 sections` branch is unreachable. -/
theorem c4_parse_always_six_sections (t : List Char) :
    parse_sections t = .ok (parseEntries t section_names) ∧
    (parseEntries t section_names).length = 6 ∧
    (parseEntries t section_names).map Prod.fst = canonicalTitles ∧
    ((parseEntries t section_names).map Prod.fst).Nodup ∧
    (∀ nm title, (nm, title) ∈ section_names →
      findSub (markerOf nm) t = none →
      dictGet (parseEntries t section_names) title = placeholderOf title) :=
  ⟨parse_sections_ok t, parseEntries_length t, parseEntries_keys t,
   by rw [parseEntries_keys]; decide,
   fun nm title hmem hnone => parseEntries_placeholder t nm title hmem hnone⟩

/-- Witness for C4 at a concrete input: a malformed response containing
only the `===DIET===` marker still parses to six entries, and the section
whose marker is missing holds its placeholder. -/
theorem c4_parse_always_six_sections_witness :
    (parseEntries (chars "junk ===DIET=== rest") section_names).length = 6 ∧
    dictGet (parseEntries (chars "junk ===DIET=== rest") section_names)
      "Medications" = placeholderOf "Medications" := by
  refine ⟨(c4_parse_always_six_sections (chars "junk ===DIET=== rest")).2.1, ?_⟩
  exact (c4_parse_always_six_sections (chars "junk ===DIET=== rest")).2.2.2.2
    "MEDICATIONS" "Medications" (by decide) (by decide)

/-- With all six marker searches resolved, the parse loop returns the
trimmed slices between consecutive marker positions. -/
theorem parseEntries_of_finds (t : List Char) (p1 p2 p3 p4 p5 p6 : Nat)
    (f1 : findSub (markerOf "MEDICATIONS") t = some p1)
    (f2 : findSub (markerOf "WARNING SIGNS") t = some p2)
    (f3 : findSub (markerOf "MOBILITY") t = some p3)
    (f4 : findSub (markerOf "DIET") t = some p4)
    (f5 : findSub (markerOf "FOLLOW-UPS") t = some p5)
    (f6 : findSub (markerOf "TEACH-BACK") t = some p6) :
    parseEntries t section_names =
      [("Medications", stripChars (slice t (p1 + (markerOf "MEDICATIONS").length) p2)),
       ("Warning Signs", stripChars (slice t (p2 + (markerOf "WARNING SIGNS").length) p3)),
       ("Mobility", stripChars (slice t (p3 + (markerOf "MOBILITY").length) p4)),
       ("Diet", stripChars (slice t (p4 + (markerOf "DIET").length) p5)),
       ("Follow-Ups", stripChars (slice t (p5 + (markerOf "FOLLOW-UPS").length) p6)),
       ("Teach-Back", stripChars (slice t (p6 + (markerOf "TEACH-BACK").length) t.length))] := by
  simp [parseEntries, section_names, f1, f2, f3, f4, f5, f6]

/-- The shape of a generation response that contains the six literal
markers in the canonical order (spec §6): arbitrary text `s0` before the
first marker and the inter-marker texts `s1`–`s6`. -/
def assembled (s0 s1 s2 s3 s4 s5 s6 : List Char) : List Char :=
  s0 ++ markerOf "MEDICATIONS" ++ s1 ++ markerOf "WARNING SIGNS" ++ s2 ++
    markerOf "MOBILITY" ++ s3 ++ markerOf "DIET" ++ s4 ++
    markerOf "FOLLOW-UPS" ++ s5 ++ markerOf "TEACH-BACK" ++ s6

/-- C5: for a generation response containing all six literal markers
exactly once and in the canonical order, parsing returns, for each of
the six sections, exactly the text between that section marker and the
next (or the end of the text for `Teach-Back`), stripped of leading and
trailing whitespace. -/
theorem c5_parse_extracts_inter_marker_text (s0 s1 s2 s3 s4 s5 s6 : List Char)
    (h1 : occCount (markerOf "MEDICATIONS") (assembled s0 s1 s2 s3 s4 s5 s6) = 1)
    (h2 : occCount (markerOf "WARNING SIGNS") (assembled s0 s1 s2 s3 s4 s5 s6) = 1)
    (h3 : occCount (markerOf "MOBILITY") (assembled s0 s1 s2 s3 s4 s5 s6) = 1)
    (h4 : occCount (markerOf "DIET") (assembled s0 s1 s2 s3 s4 s5 s6) = 1)
    (h5 : occCount (markerOf "FOLLOW-UPS") (assembled s0 s1 s2 s3 s4 s5 s6) = 1)
    (h6 : occCount (markerOf "TEACH-BACK") (assembled s0 s1 s2 s3 s4 s5 s6) = 1) :
    parse_sections (assembled s0 s1 s2 s3 s4 s5 s6) =
      .ok [("Medications", stripChars s1), ("Warning Signs", stripChars s2),
           ("Mobility", stripChars s3), ("Diet", stripChars s4),
           ("Follow-Ups", stripChars s5), ("Teach-Back", stripChars s6)] := by
  have f1 := findSub_of_count_one s0
    (s1 ++ markerOf "WARNING SIGNS" ++ s2 ++ markerOf "MOBILITY" ++ s3 ++
      markerOf "DIET" ++ s4 ++ markerOf "FOLLOW-UPS" ++ s5 ++
      markerOf "TEACH-BACK" ++ s6)
    (markerOf "MEDICATIONS") (by decide)
    (by simpa [assembled, List.append_assoc] using h1)
  rw [show s0 ++ (markerOf "MEDICATIONS" ++
      (s1 ++ markerOf "WARNING SIGNS" ++ s2 ++ markerOf "MOBILITY" ++ s3 ++
        markerOf "DIET" ++ s4 ++ markerOf "FOLLOW-UPS" ++ s5 ++
        markerOf "TEACH-BACK" ++ s6)) = assembled s0 s1 s2 s3 s4 s5 s6 from by
    simp [assembled, List.append_assoc]] at f1
  have f2 := findSub_of_count_one (s0 ++ markerOf "MEDICATIONS" ++ s1)
    (s2 ++ markerOf "MOBILITY" ++ s3 ++ markerOf "DIET" ++ s4 ++
      markerOf "FOLLOW-UPS" ++ s5 ++ markerOf "TEACH-BACK" ++ s6)
    (markerOf "WARNING SIGNS") (by decide)
    (by simpa [assembled, List.append_assoc] using h2)
  rw [show (s0 ++ markerOf "MEDICATIONS" ++ s1) ++ (markerOf "WARNING SIGNS" ++
      (s2 ++ markerOf "MOBILITY" ++ s3 ++ markerOf "DIET" ++ s4 ++
        markerOf "FOLLOW-UPS" ++ s5 ++ markerOf "TEACH-BACK" ++ s6)) =
      assembled s0 s1 s2 s3 s4 s5 s6 from by
    simp [assembled, List.append_assoc]] at f2
  have f3 := findSub_of_count_one
    (s0 ++ markerOf "MEDICATIONS" ++ s1 ++ markerOf "WARNING SIGNS" ++ s2)
    (s3 ++ markerOf "DIET" ++ s4 ++ markerOf "FOLLOW-UPS" ++ s5 ++
      markerOf "TEACH-BACK" ++ s6)
    (markerOf "MOBILITY") (by decide)
    (by simpa [assembled, List.append_assoc] using h3)
  rw [show (s0 ++ markerOf "MEDICATIONS" ++ s1 ++ markerOf "WARNING SIGNS" ++ s2) ++
      (markerOf "MOBILITY" ++
        (s3 ++ markerOf "DIET" ++ s4 ++ markerOf "FOLLOW-UPS" ++ s5 ++
          markerOf "TEACH-BACK" ++ s6)) = assembled s0 s1 s2 s3 s4 s5 s6 from by
    simp [assembled, List.append_assoc]] at f3
  have f4 := findSub_of_count_one
    (s0 ++ markerOf "MEDICATIONS" ++ s1 ++ markerOf "WARNING SIGNS" ++ s2 ++
      markerOf "MOBILITY" ++ s3)
    (s4 ++ markerOf "FOLLOW-UPS" ++ s5 ++ markerOf "TEACH-BACK" ++ s6)
    (markerOf "DIET") (by decide)
    (by simpa [assembled, List.append_assoc] using h4)
  rw [show (s0 ++ markerOf "MEDICATIONS" ++ s1 ++ markerOf "WARNING SIGNS" ++ s2 ++
      markerOf "MOBILITY" ++ s3) ++ (markerOf "DIET" ++
        (s4 ++ markerOf "FOLLOW-UPS" ++ s5 ++ markerOf "TEACH-BACK" ++ s6)) =
      assembled s0 s1 s2 s3 s4 s5 s6 from by
    simp [assembled, List.append_assoc]] at f4
  have f5 := findSub_of_count_one
    (s0 ++ markerOf "MEDICATIONS" ++ s1 ++ markerOf "WARNING SIGNS" ++ s2 ++
      markerOf "MOBILITY" ++ s3 ++ markerOf "DIET" ++ s4)
    (s5 ++ markerOf "TEACH-BACK" ++ s6)
    (markerOf "FOLLOW-UPS") (by decide)
    (by simpa [assembled, List.append_assoc] using h5)
  rw [show (s0 ++ markerOf "MEDICATIONS" ++ s1 ++ markerOf "WARNING SIGNS" ++ s2 ++
      markerOf "MOBILITY" ++ s3 ++ markerOf "DIET" ++ s4) ++
      (markerOf "FOLLOW-UPS" ++ (s5 ++ markerOf "TEACH-BACK" ++ s6)) =
      assembled s0 s1 s2 s3 s4 s5 s6 from by
    simp [assembled, List.append_assoc]] at f5
  have f6 := findSub_of_count_one
    (s0 ++ markerOf "MEDICATIONS" ++ s1 ++ markerOf "WARNING SIGNS" ++ s2 ++
      markerOf "MOBILITY" ++ s3 ++ markerOf "DIET" ++ s4 ++
      markerOf "FOLLOW-UPS" ++ s5)
    s6 (markerOf "TEACH-BACK") (by decide)
    (by simpa [assembled, List.append_assoc] using h6)
  rw [show (s0 ++ markerOf "MEDICATIONS" ++ s1 ++ markerOf "WARNING SIGNS" ++ s2 ++
      markerOf "MOBILITY" ++ s3 ++ markerOf "DIET" ++ s4 ++
      markerOf "FOLLOW-UPS" ++ s5) ++ (markerOf "TEACH-BACK" ++ s6) =
      assembled s0 s1 s2 s3 s4 s5 s6 from by
    simp [assembled, List.append_assoc]] at f6
  rw [parse_sections_ok, parseEntries_of_finds _ _ _ _ _ _ _ f1 f2 f3 f4 f5 f6]
  simp only [Except.ok.injEq, List.cons.injEq, Prod.mk.injEq, true_and, and_true]
  refine ⟨?_, ?_, ?_, ?_, ?_, ?_⟩
  · refine congrArg stripChars ?_
    rw [show assembled s0 s1 s2 s3 s4 s5 s6 = (s0 ++ markerOf "MEDICATIONS") ++
        (s1 ++ (markerOf "WARNING SIGNS" ++ s2 ++ markerOf "MOBILITY" ++ s3 ++
          markerOf "DIET" ++ s4 ++ markerOf "FOLLOW-UPS" ++ s5 ++
          markerOf "TEACH-BACK" ++ s6)) from by simp [assembled, List.append_assoc]]
    exact slice_middle _ _ _ _ _ (by simp) (by simp [List.append_assoc, Nat.add_assoc])
  · refine congrArg stripChars ?_
    rw [show assembled s0 s1 s2 s3 s4 s5 s6 =
        (s0 ++ markerOf "MEDICATIONS" ++ s1 ++ markerOf "WARNING SIGNS") ++
        (s2 ++ (markerOf "MOBILITY" ++ s3 ++ markerOf "DIET" ++ s4 ++
          markerOf "FOLLOW-UPS" ++ s5 ++ markerOf "TEACH-BACK" ++ s6)) from by
      simp [assembled, List.append_assoc]]
    exact slice_middle _ _ _ _ _ (by simp [List.append_assoc, Nat.add_assoc])
      (by simp [List.append_assoc, Nat.add_assoc])
  · refine congrArg stripChars ?_
    rw [show assembled s0 s1 s2 s3 s4 s5 s6 =
        (s0 ++ markerOf "MEDICATIONS" ++ s1 ++ markerOf "WARNING SIGNS" ++ s2 ++
          markerOf "MOBILITY") ++
        (s3 ++ (markerOf "DIET" ++ s4 ++ markerOf "FOLLOW-UPS" ++ s5 ++
          markerOf "TEACH-BACK" ++ s6)) from by simp [assembled, List.append_assoc]]
    exact slice_middle _ _ _ _ _ (by simp [List.append_assoc, Nat.add_assoc])
      (by simp [List.append_assoc, Nat.add_assoc])
  · refine congrArg stripChars ?_
    rw [show assembled s0 s1 s2 s3 s4 s5 s6 =
        (s0 ++ markerOf "MEDICATIONS" ++ s1 ++ markerOf "WARNING SIGNS" ++ s2 ++
          markerOf "MOBILITY" ++ s3 ++ markerOf "DIET") ++
        (s4 ++ (markerOf "FOLLOW-UPS" ++ s5 ++ markerOf "TEACH-BACK" ++ s6)) from by
      simp [assembled, List.append_assoc]]
    exact slice_middle _ _ _ _ _ (by simp [List.append_assoc, Nat.add_assoc])
      (by simp [List.append_assoc, Nat.add_assoc])
  · refine congrArg stripChars ?_
    rw [show assembled s0 s1 s2 s3 s4 s5 s6 =
        (s0 ++ markerOf "MEDICATIONS" ++ s1 ++ markerOf "WARNING SIGNS" ++ s2 ++
          markerOf "MOBILITY" ++ s3 ++ markerOf "DIET" ++ s4 ++
          markerOf "FOLLOW-UPS") ++
        (s5 ++ (markerOf "TEACH-BACK" ++ s6)) from by
      simp [assembled, List.append_assoc]]
    exact slice_middle _ _ _ _ _ (by simp [List.append_assoc, Nat.add_assoc])
      (by simp [List.append_assoc, Nat.add_assoc])
  · refine congrArg stripChars ?_
    rw [show assembled s0 s1 s2 s3 s4 s5 s6 =
        (s0 ++ markerOf "MEDICATIONS" ++ s1 ++ markerOf "WARNING SIGNS" ++ s2 ++
          markerOf "MOBILITY" ++ s3 ++ markerOf "DIET" ++ s4 ++
          markerOf "FOLLOW-UPS" ++ s5 ++ markerOf "TEACH-BACK") ++ s6 from by
      simp [assembled, List.append_assoc]]
    exact slice_to_end _ _ _ (by simp [List.append_assoc, Nat.add_assoc])

set_option maxRecDepth 100000 in
/-- Witness for C5: a concrete well-formed response (Scenario A of the
spec) parses into the six trimmed inter-marker texts. -/
theorem c5_parse_extracts_inter_marker_text_witness :
    parse_sections (assembled (chars "Plan:\n") (chars "\nTake aspirin.\n")
        (chars "\nCall 911.\n") (chars "\nWalk daily.\n") (chars "\nSoft food.\n")
        (chars "\nPCP in 1 week.\n") (chars "\nWhat meds?\n")) =
      .ok [("Medications", chars "Take aspirin."),
           ("Warning Signs", chars "Call 911."),
           ("Mobility", chars "Walk daily."),
           ("Diet", chars "Soft food."),
           ("Follow-Ups", chars "PCP in 1 week."),
           ("Teach-Back", chars "What meds?")] := by
  have h := c5_parse_extracts_inter_marker_text (chars "Plan:\n")
    (chars "\nTake aspirin.\n") (chars "\nCall 911.\n") (chars "\nWalk daily.\n")
    (chars "\nSoft food.\n") (chars "\nPCP in 1 week.\n") (chars "\nWhat meds?\n")
    (by decide) (by decide) (by decide) (by decide) (by decide) (by decide)
  rw [h]
  simp only [Except.ok.injEq]
  decide

/-! ## `_call_openai_with_retry` (src/services/openai_service.py:138-169)

The transport is external: an attempt either returns response text or
raises, modelled by `oracle : Nat → Except E V` giving the outcome of
each zero-indexed attempt.  The loop `for attempt in range(max_retries + 1)`
returns the first successful response; a failed non-final attempt sleeps
`(2 ** attempt) * 2` seconds and continues; a failed final attempt
re-raises an exception carrying the attempt count and the last
underlying failure.  The result records the backoff delays slept, the
number of attempts made, and the outcome (`none` would mean the loop
fell through without returning, which never happens). -/

/-- The body of the retry loop, iterating over the remaining attempt
indices of `range(max_retries + 1)`. -/
def retryLoop {E V : Type} (oracle : Nat → Except E V) (max_retries : Nat) :
    List Nat → List Nat × Nat × Option (Except (Nat × E) V)
  | [] => ([], 0, none)
  | attempt :: rest =>
    match oracle attempt with
    | .ok v => ([], 1, some (.ok v))
    | .error e =>
      if attempt < max_retries then
        let r := retryLoop oracle max_retries rest
        ((2 ^ attempt * 2) :: r.1, r.2.1 + 1, r.2.2)
      else
        ([], 1, some (.error (max_retries + 1, e)))

/-- Model of `_call_openai_with_retry(prompt, max_retries)`. -/
def call_openai_with_retry {E V : Type} (oracle : Nat → Except E V)
    (max_retries : Nat) : List Nat × Nat × Option (Except (Nat × E) V) :=
  retryLoop oracle max_retries (List.range (max_retries + 1))

/-- C7: with the retry limit at its configured value of 2, at most three
attempts are made; success on attempt `k` (1-indexed, `k ≤ 3`) makes
exactly `k` attempts, returns that attempt's response, and sleeps the
exponentially growing delays 2s then 4s between consecutive attempts;
three failures raise an error carrying the last underlying failure and
return no partial result. -/
theorem c7_retry_three_attempts {E V : Type} (oracle : Nat → Except E V) :
    ((call_openai_with_retry oracle 2).2.1 ≤ 3) ∧
    (∀ v, oracle 0 = .ok v →
      call_openai_with_retry oracle 2 = ([], 1, some (.ok v))) ∧
    (∀ e0 v, oracle 0 = .error e0 → oracle 1 = .ok v →
      call_openai_with_retry oracle 2 = ([2], 2, some (.ok v))) ∧
    (∀ e0 e1 v, oracle 0 = .error e0 → oracle 1 = .error e1 → oracle 2 = .ok v →
      call_openai_with_retry oracle 2 = ([2, 4], 3, some (.ok v))) ∧
    (∀ e0 e1 e2, oracle 0 = .error e0 → oracle 1 = .error e1 →
      oracle 2 = .error e2 →
      call_openai_with_retry oracle 2 = ([2, 4], 3, some (.error (3, e2)))) := by
  have hrange : List.range 3 = [0, 1, 2] := by decide
  refine ⟨?_, ?_, ?_, ?_, ?_⟩
  · rcases h0 : oracle 0 with e0 | v0
    · rcases h1 : oracle 1 with e1 | v1
      · rcases h2 : oracle 2 with e2 | v2 <;>
          simp [call_openai_with_retry, hrange, retryLoop, h0, h1, h2]
      · simp [call_openai_with_retry, hrange, retryLoop, h0, h1]
    · simp [call_openai_with_retry, hrange, retryLoop, h0]
  · intro v h0
    simp [call_openai_with_retry, hrange, retryLoop, h0]
  · intro e0 v h0 h1
    simp [call_openai_with_retry, hrange, retryLoop, h0, h1]
  · intro e0 e1 v h0 h1 h2
    simp [call_openai_with_retry, hrange, retryLoop, h0, h1, h2]
  · intro e0 e1 e2 h0 h1 h2
    simp [call_openai_with_retry, hrange, retryLoop, h0, h1, h2]

/-- Witness for C7: a concrete transport failing on attempts 1 and 2 and
succeeding on attempt 3 (Scenario C of the spec). -/
theorem c7_retry_three_attempts_witness :
    call_openai_with_retry
      (fun k => if k < 2 then Except.error "boom" else Except.ok "text") 2 =
      ([2, 4], 3, some (.ok "text")) :=
  (c7_retry_three_attempts
    (fun k => if k < 2 then Except.error "boom" else Except.ok "text")).2.2.2.1
    "boom" "boom" "text" rfl rfl rfl

/-! ## `review_discharge_plan` (src/services/openai_service.py:214-249)

JSON text extraction from the raw QC response: a ```` ```json ````-tagged
fenced block, an untagged ```` ``` ```` fenced block, or the bare
response, then `strip`.  Python's `find("```", json_start)` returns `-1`
when the closing fence is missing, and `text[start:-1]` then slices up
to `len - 1`; the `none` branches model that.  `json.loads` is external
and is a parameter `loads`; its result is only inspected through
`isinstance(flags, list)`, modelled by `JsonResult`.  Any parse failure
is caught and yields the empty flag list. -/

/-- What the caller observes of a parsed JSON value. -/
inductive JsonResult (α : Type) : Type
  | list (xs : List α)
  | nonlist

/-- The JSON-text extraction step of `review_discharge_plan`. -/
def extract_json_text (t : List Char) : List Char :=
  if containsSub (chars "```json") t then
    let json_start := (findSub (chars "```json") t).getD 0 + 7
    match findFrom (chars "```") t json_start with
    | some json_end => stripChars (slice t json_start json_end)
    | none => stripChars (slice t json_start (t.length - 1))
  else if containsSub (chars "```") t then
    let json_start := (findSub (chars "```") t).getD 0 + 3
    match findFrom (chars "```") t json_start with
    | some json_end => stripChars (slice t json_start json_end)
    | none => stripChars (slice t json_start (t.length - 1))
  else stripChars t

/-- Model of `review_discharge_plan` after the transport call: extract, parse,
return the array's flags, degrading to `[]` on any parse failure or on a
non-list JSON value. -/
def review_discharge_plan {α : Type}
    (loads : List Char → Except String (JsonResult α)) (t : List Char) :
    List α :=
  match loads (extract_json_text t) with
  | .ok (.list xs) => xs
  | .ok .nonlist => []
  | .error _ => []

theorem extract_json_tagged (body tail : List Char)
    (hbody : ∀ q, q < body.length →
      occursAtB (body ++ (chars "```" ++ tail)) (chars "```") q = false) :
    extract_json_text (chars "```json" ++ (body ++ (chars "```" ++ tail))) =
      stripChars body := by
  have hfind7 : findSub (chars "```json")
      (chars "```json" ++ (body ++ (chars "```" ++ tail))) = some 0 := by
    have hocc : occursAtB (chars "```json" ++ (body ++ (chars "```" ++ tail)))
        (chars "```json") 0 = true := by
      have := occursAtB_append [] (body ++ (chars "```" ++ tail)) (chars "```json")
      simpa using this
    exact findSub_eq_some_of_first hocc (by omega)
  have hdrop : (chars "```json" ++ (body ++ (chars "```" ++ tail))).drop 7 =
      body ++ (chars "```" ++ tail) := by
    have : (chars "```json").length = 7 := by decide
    rw [← this, List.drop_left]
  have hfence : findSub (chars "```") (body ++ (chars "```" ++ tail)) =
      some body.length :=
    findSub_eq_some_of_first (occursAtB_append body tail (chars "```")) hbody
  rw [extract_json_text]
  rw [if_pos (containsSub_of_occ (show occursAtB _ (chars "```json") 0 = true by
    have := occursAtB_append [] (body ++ (chars "```" ++ tail)) (chars "```json")
    simpa using this))]
  rw [hfind7]
  simp only [Option.getD_some, Nat.zero_add, findFrom, hdrop, hfence,
    Option.map_some']
  have hslice : slice (chars "```json" ++ (body ++ (chars "```" ++ tail))) 7
      (body.length + 7) = body := by
    have h7 : (7 : Nat) = (chars "```json").length := by decide
    refine slice_middle (chars "```json") body (chars "```" ++ tail) _ _ h7 ?_
    omega
  rw [hslice]

theorem extract_json_untagged (body tail : List Char)
    (hnotags : containsSub (chars "```json")
      (chars "```" ++ (body ++ (chars "```" ++ tail))) = false)
    (hbody : ∀ q, q < body.length →
      occursAtB (body ++ (chars "```" ++ tail)) (chars "```") q = false) :
    extract_json_text (chars "```" ++ (body ++ (chars "```" ++ tail))) =
      stripChars body := by
  have hfind3 : findSub (chars "```")
      (chars "```" ++ (body ++ (chars "```" ++ tail))) = some 0 := by
    have hocc : occursAtB (chars "```" ++ (body ++ (chars "```" ++ tail)))
        (chars "```") 0 = true := by
      have := occursAtB_append [] (body ++ (chars "```" ++ tail)) (chars "```")
      simpa using this
    exact findSub_eq_some_of_first hocc (by omega)
  have hdrop : (chars "```" ++ (body ++ (chars "```" ++ tail))).drop 3 =
      body ++ (chars "```" ++ tail) := by
    have : (chars "```").length = 3 := by decide
    rw [← this, List.drop_left]
  have hfence : findSub (chars "```") (body ++ (chars "```" ++ tail)) =
      some body.length :=
    findSub_eq_some_of_first (occursAtB_append body tail (chars "```")) hbody
  rw [extract_json_text, if_neg (by rw [hnotags]; exact Bool.false_ne_true)]
  rw [if_pos (containsSub_of_occ (show occursAtB _ (chars "```") 0 = true by
    have := occursAtB_append [] (body ++ (chars "```" ++ tail)) (chars "```")
    simpa using this))]
  rw [hfind3]
  simp only [Option.getD_some, Nat.zero_add, findFrom, hdrop, hfence,
    Option.map_some']
  have hslice : slice (chars "```" ++ (body ++ (chars "```" ++ tail))) 3
      (body.length + 3) = body := by
    have h3 : (3 : Nat) = (chars "```").length := by decide
    refine slice_middle (chars "```") body (chars "```" ++ tail) _ _ h3 ?_
    omega
  rw [hslice]

theorem extract_json_bare (t : List Char)
    (hnofence : containsSub (chars "```") t = false) :
    extract_json_text t = stripChars t := by
  have hnotags : containsSub (chars "```json") t = false := by
    cases h : containsSub (chars "```json") t
    · rfl
    · obtain ⟨p, hp⟩ : ∃ p, occursAtB t (chars "```json") p = true := by
        rcases hsome : findSub (chars "```json") t with _ | q
        · rw [containsSub, hsome] at h
          simp at h
        · obtain ⟨p, _, hocc⟩ := findSubAux_sound t 0 q hsome
          exact ⟨p, hocc⟩
      have hpre : occursAtB t (chars "```") p = true := by
        rw [occursAtB] at hp ⊢
        have h1 := List.isPrefixOf_iff_prefix.mp hp
        exact List.isPrefixOf_iff_prefix.mpr
          (List.IsPrefix.trans (by decide : chars "```" <+: chars "```json") h1)
      rw [containsSub_of_occ hpre] at hnofence
      exact absurd hnofence (by simp)
  rw [extract_json_text, if_neg (by rw [hnotags]; exact Bool.false_ne_true),
    if_neg (by rw [hnofence]; exact Bool.false_ne_true)]

/-- C6: the review step degrades to the empty flag list whenever JSON
extraction or parsing fails or yields a non-array value, and returns
exactly the array's flags when the response is a fenced block (tagged or
untagged) or a bare JSON array — in particular a fenced `[]` yields zero
flags. -/
theorem c6_review_parse_degrade {α : Type}
    (loads : List Char → Except String (JsonResult α)) :
    (∀ t e, loads (extract_json_text t) = .error e →
      review_discharge_plan loads t = []) ∧
    (∀ t, loads (extract_json_text t) = .ok .nonlist →
      review_discharge_plan loads t = []) ∧
    (∀ t xs, loads (extract_json_text t) = .ok (.list xs) →
      review_discharge_plan loads t = xs) ∧
    (∀ body tail xs,
      (∀ q, q < body.length →
        occursAtB (body ++ (chars "```" ++ tail)) (chars "```") q = false) →
      loads (stripChars body) = .ok (.list xs) →
      review_discharge_plan loads
        (chars "```json" ++ (body ++ (chars "```" ++ tail))) = xs) ∧
    (∀ body tail xs,
      containsSub (chars "```json")
        (chars "```" ++ (body ++ (chars "```" ++ tail))) = false →
      (∀ q, q < body.length →
        occursAtB (body ++ (chars "```" ++ tail)) (chars "```") q = false) →
      loads (stripChars body) = .ok (.list xs) →
      review_discharge_plan loads
        (chars "```" ++ (body ++ (chars "```" ++ tail))) = xs) ∧
    (∀ t xs, containsSub (chars "```") t = false →
      loads (stripChars t) = .ok (.list xs) →
      review_discharge_plan loads t = xs) ∧
    (loads (chars "[]") = .ok (.list []) →
      review_discharge_plan loads (chars "```json\n[]\n```") = []) := by
  refine ⟨?_, ?_, ?_, ?_, ?_, ?_, ?_⟩
  · intro t e h
    rw [review_discharge_plan, h]
  · intro t h
    rw [review_discharge_plan, h]
  · intro t xs h
    rw [review_discharge_plan, h]
  · intro body tail xs hbody hloads
    rw [review_discharge_plan, extract_json_tagged body tail hbody, hloads]
  · intro body tail xs hnotags hbody hloads
    rw [review_discharge_plan,
      extract_json_untagged body tail hnotags hbody, hloads]
  · intro t xs hnofence hloads
    rw [review_discharge_plan, extract_json_bare t hnofence, hloads]
  · intro hloads
    have hext : extract_json_text (chars "```json\n[]\n```") = chars "[]" := by
      decide
    rw [review_discharge_plan, hext, hloads]

/-- Witness for C6: Scenario E — a fenced ```` ```json ```` block holding
`[]` yields zero flags, while an unparseable response also degrades to
zero flags rather than an error. -/
theorem c6_review_parse_degrade_witness :
    review_discharge_plan
      (fun t => if t = chars "[]" then .ok (.list ([] : List Nat))
                else .error "parse error")
      (chars "```json\n[]\n```") = [] ∧
    review_discharge_plan
      (fun t => if t = chars "[]" then .ok (.list ([] : List Nat))
                else .error "parse error")
      (chars "not json at all") = [] := by
  constructor
  · exact (c6_review_parse_degrade _).2.2.2.2.2.2 rfl
  · exact (c6_review_parse_degrade _).1 (chars "not json at all")
      "parse error" rfl

/-! ## Persistence model (src/services/db_operations.py, src/core/database.py)

Table rows carry exactly the columns the pipeline reads or writes
(timestamps are omitted: nothing in the verified operations branches on
them; `ORDER BY created_at` is modelled by insertion order of the row
lists).  `next_plan_id` / `next_flag_id` model SQLite's AUTOINCREMENT
row ids. -/

structure PatientRow where
  patient_id : String
  name : String
  mrn : String
  language : String
  disposition : String
  qc_status : String
  wf_status : String
deriving Repr, DecidableEq

structure PlanRow where
  id : Nat
  patient_id : String
  version : Nat
  language : String
  reading_level : String
  include_caregiver : Bool
  plan_content : String
  is_current : Bool
deriving Repr, DecidableEq

structure SectionRow where
  plan_id : Nat
  section_name : String
  section_content : String
deriving Repr, DecidableEq

structure FlagRow where
  id : Nat
  patient_id : String
  plan_id : Nat
  flag_type : String
  severity : String
  message : String
  suggested_fix : String
  target_section : String
  resolved : Bool
deriving Repr, DecidableEq

structure WorkflowRow where
  patient_id : String
  intake_done : Bool
  generate_done : Bool
  qc_done : Bool
  edit_done : Bool
  finalize_done : Bool
  hospital_summary_done : Bool
  ai_generation_done : Bool
  qc_analysis_done : Bool
  qc_clearance_done : Bool
  final_approval_done : Bool
deriving Repr, DecidableEq

structure FinalizationRow where
  patient_id : String
  teachback_completed : Bool
  caregiver_present : Bool
  interpreter_used : Bool
  nurse_confidence : Nat
deriving Repr, DecidableEq

structure DBState where
  patients : List PatientRow
  plans : List PlanRow
  sections : List SectionRow
  flags : List FlagRow
  workflow : List WorkflowRow
  finalization : List FinalizationRow
  next_plan_id : Nat
  next_flag_id : Nat
deriving Repr, DecidableEq

/-- The fields of the `DischargePlan` dataclass supplied to
`create_discharge_plan` by the Generate tab. -/
structure PlanInput where
  language : String
  reading_level : String
  include_caregiver : Bool
  plan_content : String
deriving Repr, DecidableEq

/-- One element of the JSON flag array returned by
`review_discharge_plan`: a dict read with `flag_data["flag_type"]`,
`flag_data["severity"]`, `flag_data["message"]`,
`flag_data.get("suggested_fix", "")`, `flag_data.get("target_section", "")`. -/
structure FlagData where
  flag_type : String
  severity : String
  message : String
  suggested_fix : Option String
  target_section : Option String
deriving Repr, DecidableEq

/-- Model of `get_current_plan`: the `is_current` plan of the patient
(`ORDER BY created_at DESC LIMIT 1`: the most recently inserted match). -/
def get_current_plan (s : DBState) (pid : String) : Option PlanRow :=
  (s.plans.filter (fun r => r.patient_id == pid && r.is_current)).getLast?

/-- The query `SELECT MAX(version) FROM discharge_plans WHERE patient_id = ?`,
with SQL `NULL` (no rows) read back as 0 via `result[0] or 0`. -/
def max_plan_version (s : DBState) (pid : String) : Nat :=
  ((s.plans.filter (fun r => r.patient_id == pid)).map (·.version)).foldr
    Nat.max 0

/-- Model of `create_discharge_plan`: compute the next version number, mark all of
the patient's previous plans non-current, insert the new current plan;
returns the new row id. -/
def create_discharge_plan (s : DBState) (pid : String) (plan : PlanInput) :
    Nat × DBState :=
  let next_version := max_plan_version s pid + 1
  let demoted := s.plans.map (fun r =>
    if r.patient_id == pid then { r with is_current := false } else r)
  let row : PlanRow :=
    { id := s.next_plan_id, patient_id := pid, version := next_version,
      language := plan.language, reading_level := plan.reading_level,
      include_caregiver := plan.include_caregiver,
      plan_content := plan.plan_content, is_current := true }
  (s.next_plan_id,
   { s with plans := demoted ++ [row], next_plan_id := s.next_plan_id + 1 })

/-- Model of `update_plan_section`: update the section row of `(plan_id,
section_name)` if one exists, else insert it. -/
def update_plan_section (s : DBState) (plan_id : Nat)
    (section_name content : String) : DBState :=
  if s.sections.any (fun r => r.plan_id == plan_id &&
      r.section_name == section_name) then
    { s with sections := s.sections.map (fun r =>
        if r.plan_id == plan_id && r.section_name == section_name then
          { r with section_content := content }
        else r) }
  else
    { s with sections := s.sections ++ [⟨plan_id, section_name, content⟩] }

/-- Model of `get_plan_sections`: the `{section_name: section_content}` dict of a
plan. -/
def get_plan_sections (s : DBState) (plan_id : Nat) : List (String × String) :=
  (s.sections.filter (fun r => r.plan_id == plan_id)).map
    (fun r => (r.section_name, r.section_content))

/-- Model of `get_qc_flags(patient_id, resolved)`
(`ORDER BY created_at DESC`: reverse insertion order). -/
def get_qc_flags (s : DBState) (pid : String) (resolved : Option Bool) :
    List FlagRow :=
  match resolved with
  | some b => (s.flags.filter (fun f => f.patient_id == pid &&
      f.resolved == b)).reverse
  | none => (s.flags.filter (fun f => f.patient_id == pid)).reverse

/-- Model of `create_qc_flag`: insert a flag row; returns the new row id. -/
def create_qc_flag (s : DBState) (pid : String) (plan_id : Nat)
    (flag_type severity message suggested_fix target_section : String)
    (resolved : Bool) : Nat × DBState :=
  (s.next_flag_id,
   { s with
     flags := s.flags ++ [⟨s.next_flag_id, pid, plan_id, flag_type, severity,
       message, suggested_fix, target_section, resolved⟩],
     next_flag_id := s.next_flag_id + 1 })

/-- Model of `resolve_qc_flag`: `UPDATE qc_flags SET resolved = 1 WHERE id = ?`. -/
def resolve_qc_flag (s : DBState) (flag_id : Nat) : DBState :=
  { s with flags := s.flags.map (fun f =>
      if f.id == flag_id then { f with resolved := true } else f) }

/-- Model of `check_qc_clearance`: true iff no unresolved flag of the patient has
severity RED or YELLOW. -/
def check_qc_clearance (s : DBState) (pid : String) : Bool :=
  !((get_qc_flags s pid (some false)).any (fun f =>
      f.severity == "RED" || f.severity == "YELLOW"))

/-- Model of `update_patient(patient_id, qc_status=...)`. -/
def update_patient_qc_status (s : DBState) (pid status : String) : DBState :=
  { s with patients := s.patients.map (fun r =>
      if r.patient_id == pid then { r with qc_status := status } else r) }

/-- Model of `update_patient(patient_id, wf_status=...)`. -/
def update_patient_wf_status (s : DBState) (pid status : String) : DBState :=
  { s with patients := s.patients.map (fun r =>
      if r.patient_id == pid then { r with wf_status := status } else r) }

/-- Model of `update_workflow_state(patient_id, **steps)` with a fixed keyword
set, given as a row transformer `f`. -/
def update_workflow_state (s : DBState) (pid : String)
    (f : WorkflowRow → WorkflowRow) : DBState :=
  { s with workflow := s.workflow.map (fun w =>
      if w.patient_id == pid then f w else w) }

/-! ## Workflow operations (src/app/streamlit_app.py)

Results of the external OpenAI calls (the parsed section map, the QC
flag array) and the `re.sub`-based header sanitiser of
`_apply_qc_suggestion` are parameters, since their values come from
outside the program.  Each operation returns the new state plus the
`st.error`/`st.warning`/`st.success` messages it displays. -/

inductive UiMsg : Type
  | errorMsg (msg : String)
  | warning (msg : String)
  | successMsg (msg : String)
deriving Repr, DecidableEq

/-- The severity aggregation written inline in `render_generate_tab`
(lines 835-840) and, identically, in `render_qc_tab` (lines 939-944):
it scans the freshly returned QC flag dicts. -/
def qc_status_from_flag_data (qc_flags : List FlagData) : String :=
  if qc_flags.any (fun f => f.severity == "RED") then "RED"
  else if qc_flags.any (fun f => f.severity == "YELLOW") then "YELLOW"
  else "GREEN"

/-- The severity aggregation written inline in `_apply_qc_suggestion`
(lines 324-329): it scans the remaining unresolved flag rows. -/
def qc_status_from_flags (remaining_flags : List FlagRow) : String :=
  if remaining_flags.any (fun f => f.severity == "RED") then "RED"
  else if remaining_flags.any (fun f => f.severity == "YELLOW") then "YELLOW"
  else "GREEN"

/-- The shared clearance recomputation of `_apply_qc_suggestion`
(lines 335-341) and `render_qc_tab` (lines 950-956). -/
def recompute_clearance (s : DBState) (pid : String) : DBState :=
  if check_qc_clearance s pid then
    update_workflow_state s pid (fun w => { w with qc_clearance_done := true })
  else
    update_workflow_state s pid (fun w => { w with qc_clearance_done := false })

/-- Saving one QC flag dict (`render_generate_tab` lines 824-832 /
`render_qc_tab` lines 928-936): build a `QCFlag` (its dataclass default
is `resolved = False`) and `create_qc_flag`. -/
def save_flag_data (s : DBState) (pid : String) (plan_id : Nat)
    (fd : FlagData) : DBState :=
  (create_qc_flag s pid plan_id fd.flag_type fd.severity fd.message
    (fd.suggested_fix.getD "") (fd.target_section.getD "") false).2

/-- Model of `render_generate_tab` (lines 780-859), after the generation call has
returned the parsed `sections` map and the QC call has returned
`qc_flags`: create the plan, save the sections, save the flags, set the
patient QC status from the new flags, then mark `ai_generation_done` and
`qc_analysis_done`.  The `none` branch is the `except` path of the QC
block (patient set to YELLOW); the workflow update runs either way.
`qc_clearance_done` is not touched on this path. -/
def generate_plan_op (s : DBState) (p : PatientRow) (lang reading : String)
    (caregiver : Bool) (sections : List (String × String))
    (qc_flags : List FlagData) : DBState × List UiMsg :=
  let plan : PlanInput :=
    { language := lang, reading_level := reading, include_caregiver := caregiver,
      plan_content := "AI-generated plan with " ++
        toString sections.length ++ " sections" }
  let r := create_discharge_plan s p.patient_id plan
  let s2 := sections.foldl (fun acc kv => update_plan_section acc r.1 kv.1 kv.2)
    r.2
  match get_current_plan s2 p.patient_id with
  | none =>
    let s3 := update_patient_qc_status s2 p.patient_id "YELLOW"
    let s4 := update_workflow_state s3 p.patient_id (fun w =>
      { w with ai_generation_done := true, qc_analysis_done := true })
    (s4, [.warning "⚠️ QC review failed. Plan saved, but manual review recommended."])
  | some current_plan =>
    let s3 := qc_flags.foldl (fun acc fd =>
      save_flag_data acc p.patient_id current_plan.id fd) s2
    let qc_status := qc_status_from_flag_data qc_flags
    let s4 := update_patient_qc_status s3 p.patient_id qc_status
    let s5 := update_workflow_state s4 p.patient_id (fun w =>
      { w with ai_generation_done := true, qc_analysis_done := true })
    (s5, [.successMsg "✅ Successfully generated sections!"])

/-- The `🔁 Re-run QC` action of `render_qc_tab` (lines 897-960): resolve
all currently unresolved flags, save the fresh `qc_flags`, set the
patient QC status from them, and recompute `qc_clearance_done`. -/
def rerun_qc_op (s : DBState) (p : PatientRow) (qc_flags : List FlagData) :
    DBState × List UiMsg :=
  match get_current_plan s p.patient_id with
  | none => (s, [.warning "⚠️ No discharge plan found. Generate a plan first."])
  | some current_plan =>
    let old_flags := get_qc_flags s p.patient_id (some false)
    let s1 := old_flags.foldl (fun acc f => resolve_qc_flag acc f.id) s
    let s2 := qc_flags.foldl (fun acc fd =>
      save_flag_data acc p.patient_id current_plan.id fd) s1
    let qc_status := qc_status_from_flag_data qc_flags
    let s3 := update_patient_qc_status s2 p.patient_id qc_status
    let s4 := recompute_clearance s3 p.patient_id
    (s4, [.successMsg "✅ QC review completed"])

/-- Model of `_apply_qc_suggestion` (lines 289-345).  `sanitize` is the
`re.sub(r'={3,}\s*[A-Z\s]+={3,}\s*\n?', '', content).strip()` cleanup,
whose output none of the verified properties depend on.  When the flag
names no existing section of the current plan, nothing is written but
the flag is still resolved, with a visible warning; either way the
status aggregation and clearance recomputation re-run. -/
def apply_qc_suggestion (sanitize : String → String) (s : DBState)
    (p : PatientRow) (flag : FlagRow) (content : String) :
    DBState × List UiMsg :=
  match get_current_plan s p.patient_id with
  | none => (s, [.errorMsg "No discharge plan found"])
  | some current_plan =>
    let sections_dict := get_plan_sections s current_plan.id
    let written :=
      if flag.target_section != "" &&
          sections_dict.any (fun kv => kv.1 == flag.target_section) then
        (update_plan_section s current_plan.id flag.target_section
          (sanitize content), ([] : List UiMsg))
      else
        (s, [.warning "⚠️ Target section not found. Flag marked as resolved without applying."])
    let s2 := resolve_qc_flag written.1 flag.id
    let unresolved_flags := get_qc_flags s2 p.patient_id (some false)
    let remaining_flags := unresolved_flags.filter (fun f => f.id != flag.id)
    let new_status := qc_status_from_flags remaining_flags
    let s3 := update_patient_qc_status s2 p.patient_id new_status
    let s4 := recompute_clearance s3 p.patient_id
    (s4, written.2)

/-- Model of `render_finalize_tab` (lines 1115-1202): refused outright (via
`st.stop()`) unless the patient's QC status is GREEN; also returns
before the button when no current plan exists.  Otherwise the Finalize
button saves the finalization data, sets `final_approval_done`, and
marks the patient `Finalized`. -/
def finalize_op (s : DBState) (p : PatientRow) (fin : FinalizationRow) :
    DBState × List UiMsg :=
  if p.qc_status != "GREEN" then
    (s, [.warning "⚠️ Finalize is disabled until QC status is GREEN. Please resolve all quality issues first."])
  else
    match get_current_plan s p.patient_id with
    | none => (s, [.warning "⚠️ No discharge plan found. Please generate a plan first."])
    | some _ =>
      let s1 := { s with finalization := s.finalization ++
        [{ fin with patient_id := p.patient_id }] }
      let s2 := update_workflow_state s1 p.patient_id (fun w =>
        { w with final_approval_done := true })
      let s3 := update_patient_wf_status s2 p.patient_id "Finalized"
      (s3, [.successMsg "✅ Discharge plan finalized successfully!"])

/-- The `💾 Save Changes` action of `render_plan_editor_tab`
(lines 1099-1103). -/
def save_section_op (s : DBState) (p : PatientRow) (sectionName text : String) :
    DBState × List UiMsg :=
  match get_current_plan s p.patient_id with
  | none => (s, [.warning "⚠️ No discharge plan found."])
  | some plan =>
    (update_plan_section s plan.id sectionName text, [.successMsg "saved"])

/-- The demo `🔁 Re-run QC` action of `render_plan_editor_tab`
(lines 1105-1111): sets the patient GREEN and `qc_analysis_done` without
consulting any flags. -/
def editor_demo_rerun_op (s : DBState) (p : PatientRow) :
    DBState × List UiMsg :=
  let s1 := update_patient_qc_status s p.patient_id "GREEN"
  let s2 := update_workflow_state s1 p.patient_id (fun w =>
    { w with qc_analysis_done := true })
  (s2, [])

/-- The workflow operations of the pipeline. -/
inductive Op : Type
  | generate (p : PatientRow) (lang reading : String) (caregiver : Bool)
      (sections : List (String × String)) (qc_flags : List FlagData)
  | rerunQc (p : PatientRow) (qc_flags : List FlagData)
  | applySuggestion (p : PatientRow) (flag : FlagRow) (content : String)
  | finalize (p : PatientRow) (fin : FinalizationRow)
  | saveSection (p : PatientRow) (sectionName text : String)
  | editorDemoRerun (p : PatientRow)

/-- Execute one workflow operation. -/
def execOp (sanitize : String → String) (op : Op) (s : DBState) :
    DBState × List UiMsg :=
  match op with
  | .generate p lang reading caregiver sections qc_flags =>
    generate_plan_op s p lang reading caregiver sections qc_flags
  | .rerunQc p qc_flags => rerun_qc_op s p qc_flags
  | .applySuggestion p flag content => apply_qc_suggestion sanitize s p flag content
  | .finalize p fin => finalize_op s p fin
  | .saveSection p nm text => save_section_op s p nm text
  | .editorDemoRerun p => editor_demo_rerun_op s p

/-- The workflow row of a patient. -/
def wf_lookup (s : DBState) (pid : String) : Option WorkflowRow :=
  s.workflow.find? (fun w => w.patient_id == pid)

/-- The stored `qc_clearance_done` gate (false when no row exists). -/
def clearance_flag (s : DBState) (pid : String) : Bool :=
  (wf_lookup s pid).elim false (·.qc_clearance_done)

/-- The stored `final_approval_done` gate (false when no row exists). -/
def final_approval_flag (s : DBState) (pid : String) : Bool :=
  (wf_lookup s pid).elim false (·.final_approval_done)

/-- The patient row. -/
def patient_lookup (s : DBState) (pid : String) : Option PatientRow :=
  s.patients.find? (fun r => r.patient_id == pid)

/-! ## C3: the severity aggregation formula -/

/-- The aggregation formula as the spec states it, over a whole flag
set: RED if any unresolved flag is RED, else YELLOW if any unresolved
flag is YELLOW, else GREEN. -/
def spec_aggregate_status (flags : List FlagRow) : String :=
  if flags.any (fun f => !f.resolved && f.severity == "RED") then "RED"
  else if flags.any (fun f => !f.resolved && f.severity == "YELLOW") then "YELLOW"
  else "GREEN"

theorem spec_aggregate_red_iff (flags : List FlagRow) :
    spec_aggregate_status flags = "RED" ↔
      ∃ f ∈ flags, ¬f.resolved ∧ f.severity = "RED" := by
  rw [spec_aggregate_status]
  by_cases h : flags.any (fun f => !f.resolved && f.severity == "RED") = true
  · rw [if_pos h]
    simp only [true_iff]
    obtain ⟨f, hf, hcond⟩ := List.any_eq_true.mp h
    rw [Bool.and_eq_true, Bool.not_eq_true', beq_iff_eq] at hcond
    exact ⟨f, hf, by simp [hcond.1], hcond.2⟩
  · rw [if_neg h]
    constructor
    · intro habs
      exfalso
      by_cases h2 : flags.any (fun f => !f.resolved && f.severity == "YELLOW") = true
      · rw [if_pos h2] at habs
        exact absurd habs (by decide)
      · rw [if_neg h2] at habs
        exact absurd habs (by decide)
    · rintro ⟨f, hf, hres, hsev⟩
      exact absurd (List.any_eq_true.mpr ⟨f, hf, by simp [hres, hsev]⟩) h

theorem spec_aggregate_yellow_iff (flags : List FlagRow)
    (hred : spec_aggregate_status flags ≠ "RED") :
    spec_aggregate_status flags = "YELLOW" ↔
      ∃ f ∈ flags, ¬f.resolved ∧ f.severity = "YELLOW" := by
  have hnone : flags.any (fun f => !f.resolved && f.severity == "RED") = false := by
    cases h : flags.any (fun f => !f.resolved && f.severity == "RED")
    · rfl
    · exact absurd (by rw [spec_aggregate_status, if_pos h]) hred
  rw [spec_aggregate_status, if_neg (by rw [hnone]; exact Bool.false_ne_true)]
  by_cases h : flags.any (fun f => !f.resolved && f.severity == "YELLOW") = true
  · rw [if_pos h]
    simp only [true_iff]
    obtain ⟨f, hf, hcond⟩ := List.any_eq_true.mp h
    rw [Bool.and_eq_true, Bool.not_eq_true', beq_iff_eq] at hcond
    exact ⟨f, hf, by simp [hcond.1], hcond.2⟩
  · rw [if_neg h]
    constructor
    · intro habs
      exact absurd habs (by decide)
    · rintro ⟨f, hf, hres, hsev⟩
      exact absurd (List.any_eq_true.mpr ⟨f, hf, by simp [hres, hsev]⟩) h

theorem spec_aggregate_green (flags : List FlagRow)
    (h : ∀ f ∈ flags, ¬f.resolved →
      f.severity ≠ "RED" ∧ f.severity ≠ "YELLOW") :
    spec_aggregate_status flags = "GREEN" := by
  have hr : flags.any (fun f => !f.resolved && f.severity == "RED") = false := by
    rw [List.any_eq_false]
    intro f hf
    simp only [Bool.and_eq_true, Bool.not_eq_true', beq_iff_eq, not_and]
    intro hres
    exact (h f hf (by simp [hres])).1
  have hy : flags.any (fun f => !f.resolved && f.severity == "YELLOW") = false := by
    rw [List.any_eq_false]
    intro f hf
    simp only [Bool.and_eq_true, Bool.not_eq_true', beq_iff_eq, not_and]
    intro hres
    exact (h f hf (by simp [hres])).2
  rw [spec_aggregate_status, if_neg (by rw [hr]; exact Bool.false_ne_true),
    if_neg (by rw [hy]; exact Bool.false_ne_true)]

theorem qc_status_from_flags_eq_spec (flags : List FlagRow) :
    qc_status_from_flags (flags.filter (fun f => !f.resolved)) =
      spec_aggregate_status flags := by
  rw [qc_status_from_flags, spec_aggregate_status]
  have hany : ∀ sev : String,
      (flags.filter (fun f => !f.resolved)).any (fun f => f.severity == sev) =
        flags.any (fun f => !f.resolved && f.severity == sev) := by
    intro sev
    induction flags with
    | nil => rfl
    | cons f fs ih =>
      cases h : (!f.resolved) <;>
        simp [List.filter_cons, List.any_cons, h, ih]
  rw [hany "RED", hany "YELLOW"]

theorem qc_status_from_flag_data_eq_spec (fds : List FlagData) :
    qc_status_from_flag_data fds =
      spec_aggregate_status (fds.map (fun fd =>
        { id := 0, patient_id := "", plan_id := 0, flag_type := fd.flag_type,
          severity := fd.severity, message := fd.message,
          suggested_fix := fd.suggested_fix.getD "",
          target_section := fd.target_section.getD "",
          resolved := false })) := by
  rw [qc_status_from_flag_data, spec_aggregate_status]
  have hany : ∀ sev : String,
      (fds.map (fun fd =>
        ({ id := 0, patient_id := "", plan_id := 0, flag_type := fd.flag_type,
           severity := fd.severity, message := fd.message,
           suggested_fix := fd.suggested_fix.getD "",
           target_section := fd.target_section.getD "",
           resolved := false } : FlagRow))).any
          (fun f => !f.resolved && f.severity == sev) =
        fds.any (fun f => f.severity == sev) := by
    intro sev
    induction fds with
    | nil => rfl
    | cons fd fds ih => simp [List.any_cons, ih]
  rw [hany "RED", hany "YELLOW"]

/-- C3: for every flag set (possibly empty) the recomputed status is RED
iff some unresolved flag is RED, else YELLOW iff some unresolved flag is
YELLOW, else GREEN (so the empty set yields GREEN); the initial QC pass
and the QC re-run compute this formula on the freshly returned
(all-unresolved) flag set, and the flag-resolution path computes it on
the remaining unresolved flags. -/
theorem c3_aggregation_formula (flags : List FlagRow) (fds : List FlagData) :
    spec_aggregate_status [] = "GREEN" ∧
    (spec_aggregate_status flags = "RED" ↔
      ∃ f ∈ flags, ¬f.resolved ∧ f.severity = "RED") ∧
    (spec_aggregate_status flags ≠ "RED" →
      (spec_aggregate_status flags = "YELLOW" ↔
        ∃ f ∈ flags, ¬f.resolved ∧ f.severity = "YELLOW")) ∧
    ((∀ f ∈ flags, ¬f.resolved →
        f.severity ≠ "RED" ∧ f.severity ≠ "YELLOW") →
      spec_aggregate_status flags = "GREEN") ∧
    qc_status_from_flag_data fds =
      spec_aggregate_status (fds.map (fun fd =>
        { id := 0, patient_id := "", plan_id := 0, flag_type := fd.flag_type,
          severity := fd.severity, message := fd.message,
          suggested_fix := fd.suggested_fix.getD "",
          target_section := fd.target_section.getD "",
          resolved := false })) ∧
    qc_status_from_flags (flags.filter (fun f => !f.resolved)) =
      spec_aggregate_status flags :=
  ⟨rfl, spec_aggregate_red_iff flags, spec_aggregate_yellow_iff flags,
   spec_aggregate_green flags, qc_status_from_flag_data_eq_spec fds,
   qc_status_from_flags_eq_spec flags⟩

/-- Witness for C3 at concrete flag sets: one unresolved YELLOW flag and
one resolved RED flag aggregate to YELLOW on every path. -/
theorem c3_aggregation_formula_witness :
    spec_aggregate_status
      [{ id := 1, patient_id := "p1", plan_id := 1, flag_type := "Safety",
         severity := "RED", message := "m", suggested_fix := "",
         target_section := "", resolved := true },
       { id := 2, patient_id := "p1", plan_id := 1, flag_type := "Completeness",
         severity := "YELLOW", message := "m", suggested_fix := "",
         target_section := "", resolved := false }] = "YELLOW" := by
  have h := (c3_aggregation_formula
    [{ id := 1, patient_id := "p1", plan_id := 1, flag_type := "Safety",
       severity := "RED", message := "m", suggested_fix := "",
       target_section := "", resolved := true },
     { id := 2, patient_id := "p1", plan_id := 1, flag_type := "Completeness",
       severity := "YELLOW", message := "m", suggested_fix := "",
       target_section := "", resolved := false }] []).2.2.1
  refine ((h (by decide)).mpr ?_)
  refine ⟨_, List.mem_cons_of_mem _ (List.mem_cons_self _ _), by decide, rfl⟩

/-! ## C10: severity matching is exact and case-sensitive -/

/-- C10: severities are compared by exact string equality — whenever no
unresolved flag of the patient carries exactly the string `"RED"` or
exactly `"YELLOW"` (severities such as `"red"`, `"Red"`, or any other
verbatim label included), the clearance check returns true and the
aggregate status computed by the resolution path is GREEN. -/
theorem c10_exact_severity_match (s : DBState) (pid : String)
    (h : ∀ f ∈ get_qc_flags s pid (some false),
      f.severity ≠ "RED" ∧ f.severity ≠ "YELLOW") :
    check_qc_clearance s pid = true ∧
    qc_status_from_flags (get_qc_flags s pid (some false)) = "GREEN" := by
  have hany : (get_qc_flags s pid (some false)).any (fun f =>
      f.severity == "RED" || f.severity == "YELLOW") = false := by
    rw [List.any_eq_false]
    intro f hf
    have := h f hf
    simp only [Bool.or_eq_true, beq_iff_eq, not_or]
    exact ⟨this.1, this.2⟩
  have hred : (get_qc_flags s pid (some false)).any (fun f =>
      f.severity == "RED") = false := by
    rw [List.any_eq_false]
    intro f hf
    simpa using (h f hf).1
  have hyellow : (get_qc_flags s pid (some false)).any (fun f =>
      f.severity == "YELLOW") = false := by
    rw [List.any_eq_false]
    intro f hf
    simpa using (h f hf).2
  constructor
  · rw [check_qc_clearance, hany]
    rfl
  · rw [qc_status_from_flags, if_neg (by rw [hred]; exact Bool.false_ne_true),
      if_neg (by rw [hyellow]; exact Bool.false_ne_true)]

/-- Witness for C10: a patient whose unresolved flags carry the
severities `"red"`, `"Red"` and `"CRITICAL"` — none matching `"RED"` or
`"YELLOW"` exactly — passes clearance and aggregates to GREEN. -/
theorem c10_exact_severity_match_witness :
    check_qc_clearance
      { patients := [], plans := [], sections := [],
        flags := [{ id := 1, patient_id := "p1", plan_id := 1,
                    flag_type := "Safety", severity := "red", message := "m",
                    suggested_fix := "", target_section := "",
                    resolved := false },
                  { id := 2, patient_id := "p1", plan_id := 1,
                    flag_type := "Safety", severity := "Red", message := "m",
                    suggested_fix := "", target_section := "",
                    resolved := false },
                  { id := 3, patient_id := "p1", plan_id := 1,
                    flag_type := "Safety", severity := "CRITICAL",
                    message := "m", suggested_fix := "", target_section := "",
                    resolved := false }],
        workflow := [], finalization := [], next_plan_id := 2,
        next_flag_id := 4 } "p1" = true :=
  (c10_exact_severity_match
    { patients := [], plans := [], sections := [],
      flags := [{ id := 1, patient_id := "p1", plan_id := 1,
                  flag_type := "Safety", severity := "red", message := "m",
                  suggested_fix := "", target_section := "",
                  resolved := false },
                { id := 2, patient_id := "p1", plan_id := 1,
                  flag_type := "Safety", severity := "Red", message := "m",
                  suggested_fix := "", target_section := "",
                  resolved := false },
                { id := 3, patient_id := "p1", plan_id := 1,
                  flag_type := "Safety", severity := "CRITICAL",
                  message := "m", suggested_fix := "", target_section := "",
                  resolved := false }],
      workflow := [], finalization := [], next_plan_id := 2,
      next_flag_id := 4 } "p1" (by decide)).1

/-! ## C9: plan creation — versioning, unique current plan, audit trail -/

/-- C9: after `create_discharge_plan`, the inserted plan is the unique
current plan of the patient, its version is one more than the previous
maximum (so 1 when no prior plan exists), the table grows by exactly one
row, and every pre-existing row survives with every field except
`is_current` unchanged — prior versions are never deleted. -/
theorem c9_create_plan_supersedes (s : DBState) (pid : String)
    (plan : PlanInput) :
    ((create_discharge_plan s pid plan).2.plans.length = s.plans.length + 1) ∧
    (∃ newRow ∈ (create_discharge_plan s pid plan).2.plans,
      newRow.id = (create_discharge_plan s pid plan).1 ∧
      newRow.patient_id = pid ∧ newRow.is_current = true ∧
      newRow.version = max_plan_version s pid + 1 ∧
      (s.plans.filter (fun r => r.patient_id == pid) = [] →
        newRow.version = 1) ∧
      (∀ row ∈ (create_discharge_plan s pid plan).2.plans,
        row.patient_id = pid → row.is_current = true → row = newRow)) ∧
    (∀ row ∈ s.plans, ∃ row' ∈ (create_discharge_plan s pid plan).2.plans,
      row'.id = row.id ∧ row'.patient_id = row.patient_id ∧
      row'.version = row.version ∧ row'.language = row.language ∧
      row'.reading_level = row.reading_level ∧
      row'.include_caregiver = row.include_caregiver ∧
      row'.plan_content = row.plan_content ∧
      (row'.is_current = row.is_current ∨ row'.is_current = false)) := by
  refine ⟨?_, ?_, ?_⟩
  · simp [create_discharge_plan]
  · refine ⟨(
      { id := s.next_plan_id, patient_id := pid,
        version := max_plan_version s pid + 1, language := plan.language,
        reading_level := plan.reading_level,
        include_caregiver := plan.include_caregiver,
        plan_content := plan.plan_content, is_current := true } : PlanRow),
      ?_, rfl, rfl, rfl, rfl, ?_, ?_⟩
    · simp [create_discharge_plan]
    · intro hempty
      have : max_plan_version s pid = 0 := by
        rw [max_plan_version, hempty]
        rfl
      simp [this]
    · intro row hrow hpid hcur
      simp only [create_discharge_plan, List.mem_append, List.mem_map,
        List.mem_singleton] at hrow
      rcases hrow with ⟨old, _, hold⟩ | heq
      · exfalso
        by_cases h : old.patient_id == pid
        · rw [if_pos h] at hold
          rw [← hold] at hcur
          exact absurd hcur (by simp)
        · rw [if_neg h] at hold
          rw [← hold] at hpid
          exact absurd (beq_iff_eq.mpr hpid) (by simpa using h)
      · exact heq
  · intro row hrow
    by_cases h : row.patient_id == pid
    · refine ⟨({ row with is_current := false } : PlanRow), ?_, rfl, rfl, rfl,
        rfl, rfl, rfl, rfl, Or.inr rfl⟩
      simp only [create_discharge_plan, List.mem_append]
      exact Or.inl (List.mem_map.mpr ⟨row, hrow, by rw [if_pos h]⟩)
    · refine ⟨row, ?_, rfl, rfl, rfl, rfl, rfl, rfl, rfl, Or.inl rfl⟩
      simp only [create_discharge_plan, List.mem_append]
      exact Or.inl (List.mem_map.mpr ⟨row, hrow, by rw [if_neg h]⟩)

/-- Witness for C9 at a concrete empty state: the first plan of a
patient gets version 1 and is current. -/
theorem c9_create_plan_supersedes_witness :
    (create_discharge_plan
      { patients := [], plans := [], sections := [], flags := [],
        workflow := [], finalization := [], next_plan_id := 1,
        next_flag_id := 1 } "p1"
      { language := "EN", reading_level := "Simplified",
        include_caregiver := true, plan_content := "c" }).2.plans.length = 1 ∧
    ∃ newRow ∈ (create_discharge_plan
      { patients := [], plans := [], sections := [], flags := [],
        workflow := [], finalization := [], next_plan_id := 1,
        next_flag_id := 1 } "p1"
      { language := "EN", reading_level := "Simplified",
        include_caregiver := true, plan_content := "c" }).2.plans,
      newRow.version = 1 ∧ newRow.is_current = true := by
  obtain ⟨hlen, ⟨newRow, hmem, _, _, hcur, _, hempty, _⟩, _⟩ :=
    c9_create_plan_supersedes
      { patients := [], plans := [], sections := [], flags := [],
        workflow := [], finalization := [], next_plan_id := 1,
        next_flag_id := 1 } "p1"
      { language := "EN", reading_level := "Simplified",
        include_caregiver := true, plan_content := "c" }
  exact ⟨hlen, newRow, hmem, hempty (by decide), hcur⟩

/-! ## Frame lemmas for the workflow operations -/

theorem find?_map_comm {α : Type} (g : α → α) (p : α → Bool) (l : List α)
    (h : ∀ x, p (g x) = p x) : (l.map g).find? p = (l.find? p).map g := by
  induction l with
  | nil => rfl
  | cons x xs ih =>
    rw [List.map_cons]
    cases hp : p x
    · rw [List.find?_cons_of_neg _ (by rw [h x, hp]; exact Bool.false_ne_true),
        List.find?_cons_of_neg _ (by rw [hp]; exact Bool.false_ne_true), ih]
    · rw [List.find?_cons_of_pos _ (by rw [h x, hp]),
        List.find?_cons_of_pos _ hp, Option.map_some']

theorem wf_lookup_update_workflow_state (s : DBState) (pid pid' : String)
    (f : WorkflowRow → WorkflowRow)
    (hf : ∀ w, (f w).patient_id = w.patient_id) :
    wf_lookup (update_workflow_state s pid f) pid' =
      (wf_lookup s pid').map (fun w =>
        if w.patient_id == pid then f w else w) := by
  rw [wf_lookup, update_workflow_state, wf_lookup]
  exact find?_map_comm _ _ _ (fun w => by
    by_cases h : w.patient_id == pid
    · rw [if_pos h]
      rw [show (f w).patient_id = w.patient_id from hf w]
    · rw [if_neg h])

theorem wf_lookup_self {s : DBState} {pid : String} {w : WorkflowRow}
    (h : wf_lookup s pid = some w) : w.patient_id = pid := by
  have := List.find?_some h
  exact beq_iff_eq.mp this

theorem final_approval_flag_update_workflow (s : DBState) (pid pid' : String)
    (f : WorkflowRow → WorkflowRow)
    (hf : ∀ w, (f w).patient_id = w.patient_id)
    (hfin : ∀ w, (f w).final_approval_done = w.final_approval_done) :
    final_approval_flag (update_workflow_state s pid f) pid' =
      final_approval_flag s pid' := by
  rw [final_approval_flag, final_approval_flag,
    wf_lookup_update_workflow_state s pid pid' f hf]
  cases h : wf_lookup s pid' with
  | none => rfl
  | some w =>
    rw [Option.map_some']
    simp only [Option.elim]
    by_cases hmatch : w.patient_id == pid
    · rw [if_pos hmatch, hfin]
    · rw [if_neg hmatch]

theorem clearance_flag_update_workflow (s : DBState) (pid pid' : String)
    (f : WorkflowRow → WorkflowRow)
    (hf : ∀ w, (f w).patient_id = w.patient_id)
    (hcl : ∀ w, (f w).qc_clearance_done = w.qc_clearance_done) :
    clearance_flag (update_workflow_state s pid f) pid' =
      clearance_flag s pid' := by
  rw [clearance_flag, clearance_flag,
    wf_lookup_update_workflow_state s pid pid' f hf]
  cases h : wf_lookup s pid' with
  | none => rfl
  | some w =>
    rw [Option.map_some']
    simp only [Option.elim]
    by_cases hmatch : w.patient_id == pid
    · rw [if_pos hmatch, hcl]
    · rw [if_neg hmatch]

theorem final_approval_flag_update_workflow_other (s : DBState)
    (pid pid' : String) (f : WorkflowRow → WorkflowRow)
    (hf : ∀ w, (f w).patient_id = w.patient_id) (hne : pid' ≠ pid) :
    final_approval_flag (update_workflow_state s pid f) pid' =
      final_approval_flag s pid' := by
  rw [final_approval_flag, final_approval_flag,
    wf_lookup_update_workflow_state s pid pid' f hf]
  cases h : wf_lookup s pid' with
  | none => rfl
  | some w =>
    rw [Option.map_some']
    simp only [Option.elim]
    rw [if_neg (by rw [wf_lookup_self h]; simpa using hne)]

/-- The per-patient clearance recomputation stores exactly the result of
`check_qc_clearance` in the patient's workflow row. -/
theorem clearance_flag_recompute (s : DBState) (pid : String)
    (hw : (wf_lookup s pid).isSome = true) :
    clearance_flag (recompute_clearance s pid) pid =
      check_qc_clearance s pid := by
  obtain ⟨w, hwsome⟩ := Option.isSome_iff_exists.mp hw
  have hwp : w.patient_id == pid := beq_iff_eq.mpr (wf_lookup_self hwsome)
  rw [recompute_clearance]
  by_cases h : check_qc_clearance s pid = true
  · rw [if_pos h, h, clearance_flag,
      wf_lookup_update_workflow_state s pid pid
        (fun w => { w with qc_clearance_done := true }) (fun w => rfl), hwsome,
      Option.map_some']
    simp only [Option.elim]
    rw [if_pos hwp]
  · rw [if_neg h, clearance_flag,
      wf_lookup_update_workflow_state s pid pid
        (fun w => { w with qc_clearance_done := false }) (fun w => rfl), hwsome,
      Option.map_some']
    simp only [Option.elim]
    rw [if_pos hwp]
    cases hc : check_qc_clearance s pid
    · rfl
    · exact absurd hc h

/-- Folding a `DBState`-preserving step preserves any preserved
projection. -/
theorem foldl_preserves {γ β : Type} (proj : DBState → β)
    (step : DBState → γ → DBState)
    (hstep : ∀ s x, proj (step s x) = proj s) :
    ∀ (l : List γ) (s : DBState), proj (l.foldl step s) = proj s := by
  intro l
  induction l with
  | nil => intro s; rfl
  | cons x xs ih => intro s; rw [List.foldl_cons, ih, hstep]

theorem workflow_update_plan_section (s : DBState) (plan_id : Nat)
    (nm c : String) :
    (update_plan_section s plan_id nm c).workflow = s.workflow := by
  rw [update_plan_section]
  split <;> rfl

theorem plans_update_plan_section (s : DBState) (plan_id : Nat)
    (nm c : String) :
    (update_plan_section s plan_id nm c).plans = s.plans := by
  rw [update_plan_section]
  split <;> rfl

theorem flags_update_plan_section (s : DBState) (plan_id : Nat)
    (nm c : String) :
    (update_plan_section s plan_id nm c).flags = s.flags := by
  rw [update_plan_section]
  split <;> rfl

theorem patients_update_plan_section (s : DBState) (plan_id : Nat)
    (nm c : String) :
    (update_plan_section s plan_id nm c).patients = s.patients := by
  rw [update_plan_section]
  split <;> rfl

theorem workflow_recompute_clearance (s : DBState) (pid : String) :
    (recompute_clearance s pid).workflow =
      (update_workflow_state s pid (fun w =>
        { w with qc_clearance_done := check_qc_clearance s pid })).workflow := by
  rw [recompute_clearance]
  by_cases h : check_qc_clearance s pid = true
  · rw [if_pos h, h]
  · rw [if_neg h]
    cases hc : check_qc_clearance s pid
    · rfl
    · exact absurd hc h

theorem flags_recompute_clearance (s : DBState) (pid : String) :
    (recompute_clearance s pid).flags = s.flags := by
  rw [recompute_clearance]
  split <;> rfl

theorem plans_recompute_clearance (s : DBState) (pid : String) :
    (recompute_clearance s pid).plans = s.plans := by
  rw [recompute_clearance]
  split <;> rfl

theorem sections_recompute_clearance (s : DBState) (pid : String) :
    (recompute_clearance s pid).sections = s.sections := by
  rw [recompute_clearance]
  split <;> rfl

/-- The check `check_qc_clearance` reads only the flag table. -/
theorem check_qc_clearance_congr {s s' : DBState} (pid : String)
    (h : s.flags = s'.flags) :
    check_qc_clearance s pid = check_qc_clearance s' pid := by
  rw [check_qc_clearance, check_qc_clearance, get_qc_flags, get_qc_flags, h]

/-- The gate `final_approval_flag` reads only the workflow table. -/
theorem final_approval_flag_congr {s s' : DBState} (pid : String)
    (h : s.workflow = s'.workflow) :
    final_approval_flag s pid = final_approval_flag s' pid := by
  rw [final_approval_flag, final_approval_flag, wf_lookup, wf_lookup, h]

/-- The gate `clearance_flag` reads only the workflow table. -/
theorem clearance_flag_congr {s s' : DBState} (pid : String)
    (h : s.workflow = s'.workflow) :
    clearance_flag s pid = clearance_flag s' pid := by
  rw [clearance_flag, clearance_flag, wf_lookup, wf_lookup, h]

/-- Spelling out `check_qc_clearance`: true iff no unresolved flag of
the patient has severity exactly RED or YELLOW. -/
theorem check_qc_clearance_iff (s : DBState) (pid : String) :
    check_qc_clearance s pid = true ↔
      ∀ f ∈ s.flags, f.patient_id = pid → ¬f.resolved →
        f.severity ≠ "RED" ∧ f.severity ≠ "YELLOW" := by
  rw [check_qc_clearance, Bool.not_eq_true']
  rw [get_qc_flags]
  constructor
  · intro h f hf hpid hres
    have hmem : f ∈ (s.flags.filter (fun g => g.patient_id == pid &&
        g.resolved == false)).reverse := by
      rw [List.mem_reverse]
      refine List.mem_filter.mpr ⟨hf, ?_⟩
      simp only [Bool.and_eq_true, beq_iff_eq]
      exact ⟨hpid, by simpa using hres⟩
    have := List.any_eq_false.mp h f hmem
    simp only [Bool.or_eq_true, beq_iff_eq, not_or] at this
    exact this
  · intro h
    rw [List.any_eq_false]
    intro f hf
    rw [List.mem_reverse] at hf
    obtain ⟨hmem, hcond⟩ := List.mem_filter.mp hf
    simp only [Bool.and_eq_true, beq_iff_eq] at hcond
    have := h f hmem hcond.1 (by simp [hcond.2])
    simp only [Bool.or_eq_true, beq_iff_eq, not_or]
    exact this

/-! ## C2: finalize gating -/

theorem final_approval_generate (s : DBState) (p : PatientRow)
    (lang reading : String) (caregiver : Bool)
    (sections : List (String × String)) (qf : List FlagData) (pid' : String) :
    final_approval_flag
      (generate_plan_op s p lang reading caregiver sections qf).1 pid' =
      final_approval_flag s pid' := by
  have hfold : ∀ (l : List (String × String)) (s0 : DBState) (plid : Nat),
      (l.foldl (fun acc kv => update_plan_section acc plid kv.1 kv.2)
        s0).workflow = s0.workflow := fun l s0 plid =>
    foldl_preserves (·.workflow) _
      (fun s1 x => workflow_update_plan_section s1 plid x.1 x.2) l s0
  have hfold2 : ∀ (l : List FlagData) (s0 : DBState) (pid : String)
      (plid : Nat),
      (l.foldl (fun acc fd => save_flag_data acc pid plid fd) s0).workflow =
        s0.workflow := fun l s0 pid plid =>
    foldl_preserves (·.workflow) (fun acc fd => save_flag_data acc pid plid fd)
      (fun s1 x => rfl) l s0
  rw [generate_plan_op]
  split
  all_goals dsimp only
  · rw [final_approval_flag_update_workflow _ p.patient_id pid'
      (fun w => { w with ai_generation_done := true, qc_analysis_done := true })
      (fun w => rfl) (fun w => rfl)]
    exact final_approval_flag_congr pid' (hfold _ _ _)
  · rw [final_approval_flag_update_workflow _ p.patient_id pid'
      (fun w => { w with ai_generation_done := true, qc_analysis_done := true })
      (fun w => rfl) (fun w => rfl)]
    exact final_approval_flag_congr pid' ((hfold2 _ _ _ _).trans (hfold _ _ _))

theorem final_approval_recompute (s : DBState) (pid pid' : String) :
    final_approval_flag (recompute_clearance s pid) pid' =
      final_approval_flag s pid' := by
  rw [final_approval_flag_congr pid' (workflow_recompute_clearance s pid)]
  exact final_approval_flag_update_workflow s pid pid'
    (fun w => { w with qc_clearance_done := check_qc_clearance s pid })
    (fun w => rfl) (fun w => rfl)

theorem final_approval_rerun (s : DBState) (p : PatientRow)
    (qf : List FlagData) (pid' : String) :
    final_approval_flag (rerun_qc_op s p qf).1 pid' =
      final_approval_flag s pid' := by
  have hfold2 : ∀ (l : List FlagData) (s0 : DBState) (pid : String)
      (plid : Nat),
      (l.foldl (fun acc fd => save_flag_data acc pid plid fd) s0).workflow =
        s0.workflow := fun l s0 pid plid =>
    foldl_preserves (·.workflow) (fun acc fd => save_flag_data acc pid plid fd)
      (fun s1 x => rfl) l s0
  have hfold3 : ∀ (l : List FlagRow) (s0 : DBState),
      (l.foldl (fun acc f => resolve_qc_flag acc f.id) s0).workflow =
        s0.workflow := fun l s0 =>
    foldl_preserves (·.workflow) (fun acc f => resolve_qc_flag acc f.id)
      (fun s1 x => rfl) l s0
  rw [rerun_qc_op]
  split
  · rfl
  · dsimp only
    rw [final_approval_recompute]
    exact final_approval_flag_congr pid'
      ((hfold2 _ _ _ _).trans (hfold3 _ _))

theorem final_approval_apply (sanitize : String → String) (s : DBState)
    (p : PatientRow) (flag : FlagRow) (content : String) (pid' : String) :
    final_approval_flag (apply_qc_suggestion sanitize s p flag content).1 pid' =
      final_approval_flag s pid' := by
  rw [apply_qc_suggestion]
  split
  · rfl
  · dsimp only
    rw [final_approval_recompute]
    refine final_approval_flag_congr pid' ?_
    split
    · exact workflow_update_plan_section _ _ _ _
    · rfl

theorem final_approval_save_section (s : DBState) (p : PatientRow)
    (nm text : String) (pid' : String) :
    final_approval_flag (save_section_op s p nm text).1 pid' =
      final_approval_flag s pid' := by
  rw [save_section_op]
  split
  · rfl
  · exact final_approval_flag_congr pid' (workflow_update_plan_section _ _ _ _)

theorem final_approval_editor_demo (s : DBState) (p : PatientRow)
    (pid' : String) :
    final_approval_flag (editor_demo_rerun_op s p).1 pid' =
      final_approval_flag s pid' := by
  rw [editor_demo_rerun_op]
  dsimp only
  rw [final_approval_flag_update_workflow _ p.patient_id pid'
    (fun w => { w with qc_analysis_done := true }) (fun w => rfl)
    (fun w => rfl)]
  rfl

/-- C2: Finalize invoked with a non-GREEN QC status is refused and
mutates nothing at all — the state (patient rows, workflow rows,
finalization data) is returned unchanged; and across all workflow
operations of the model, `final_approval_done` can only flip to true
through a Finalize executed for that patient while the patient's QC
status is GREEN. -/
theorem c2_finalize_gating (sanitize : String → String) :
    (∀ (s : DBState) (p : PatientRow) (fin : FinalizationRow),
      p.qc_status ≠ "GREEN" →
      execOp sanitize (.finalize p fin) s =
        (s, [.warning "⚠️ Finalize is disabled until QC status is GREEN. Please resolve all quality issues first."])) ∧
    (∀ (op : Op) (s : DBState) (pid : String),
      final_approval_flag (execOp sanitize op s).1 pid = true →
      final_approval_flag s pid = true ∨
      ∃ p fin, op = Op.finalize p fin ∧ p.patient_id = pid ∧
        p.qc_status = "GREEN") := by
  constructor
  · intro s p fin hne
    rw [execOp, finalize_op, if_pos (bne_iff_ne.mpr hne)]
  · intro op s pid h
    cases op with
    | generate p lang reading caregiver sections qf =>
      rw [execOp, final_approval_generate] at h
      exact Or.inl h
    | rerunQc p qf =>
      rw [execOp, final_approval_rerun] at h
      exact Or.inl h
    | applySuggestion p flag content =>
      rw [execOp, final_approval_apply] at h
      exact Or.inl h
    | saveSection p nm text =>
      rw [execOp, final_approval_save_section] at h
      exact Or.inl h
    | editorDemoRerun p =>
      rw [execOp, final_approval_editor_demo] at h
      exact Or.inl h
    | finalize p fin =>
      rw [execOp, finalize_op] at h
      by_cases hg : (p.qc_status != "GREEN") = true
      · rw [if_pos hg] at h
        exact Or.inl h
      · have hgreen : p.qc_status = "GREEN" := by
          simpa [bne_iff_ne] using hg
        by_cases hpid : pid = p.patient_id
        · exact Or.inr ⟨p, fin, rfl, hpid.symm, hgreen⟩
        · rw [if_neg hg] at h
          left
          rcases hplan : get_current_plan s p.patient_id with _ | cp
          · rw [hplan] at h
            exact h
          · rw [hplan] at h
            dsimp only at h
            rw [show ∀ (s0 : DBState) (pid0 st : String),
                final_approval_flag (update_patient_wf_status s0 pid0 st) pid =
                  final_approval_flag s0 pid from fun _ _ _ => rfl] at h
            rw [final_approval_flag_update_workflow_other _ p.patient_id pid
              (fun w => { w with final_approval_done := true })
              (fun w => rfl) hpid] at h
            exact h

/-- A patient whose QC status is YELLOW, for concrete scenarios. -/
def samplePatientYellow : PatientRow :=
  { patient_id := "p1", name := "n", mrn := "m", language := "EN",
    disposition := "Home", qc_status := "YELLOW", wf_status := "Draft" }

/-- A freshly initialised workflow row (all gates false). -/
def sampleWorkflowRow : WorkflowRow :=
  { patient_id := "p1", intake_done := false, generate_done := false,
    qc_done := false, edit_done := false, finalize_done := false,
    hospital_summary_done := false, ai_generation_done := false,
    qc_analysis_done := false, qc_clearance_done := false,
    final_approval_done := false }

/-- A database holding the YELLOW patient and their fresh workflow row. -/
def sampleStateYellow : DBState :=
  { patients := [samplePatientYellow], plans := [], sections := [],
    flags := [], workflow := [sampleWorkflowRow], finalization := [],
    next_plan_id := 1, next_flag_id := 1 }

/-- A filled finalization checklist. -/
def sampleFinalization : FinalizationRow :=
  { patient_id := "p1", teachback_completed := true,
    caregiver_present := false, interpreter_used := false,
    nurse_confidence := 4 }

/-- Witness for C2: Scenario D — Finalize on a YELLOW patient is refused
with the state returned untouched. -/
theorem c2_finalize_gating_witness :
    execOp (fun c => c) (Op.finalize samplePatientYellow sampleFinalization)
      sampleStateYellow =
      (sampleStateYellow,
       [UiMsg.warning "⚠️ Finalize is disabled until QC status is GREEN. Please resolve all quality issues first."]) :=
  (c2_finalize_gating (fun c => c)).1 sampleStateYellow samplePatientYellow
    sampleFinalization (by decide)

/-! ## C8: applying a suggestion with a missing target section -/

theorem patients_recompute_clearance (s : DBState) (pid : String) :
    (recompute_clearance s pid).patients = s.patients := by
  rw [recompute_clearance]
  split <;> rfl

theorem get_qc_flags_congr {s s' : DBState} (pid : String)
    (resolved : Option Bool) (h : s.flags = s'.flags) :
    get_qc_flags s pid resolved = get_qc_flags s' pid resolved := by
  cases resolved <;> simp only [get_qc_flags, h]

theorem wf_lookup_congr {s s' : DBState} (pid : String)
    (h : s.workflow = s'.workflow) : wf_lookup s pid = wf_lookup s' pid := by
  rw [wf_lookup, wf_lookup, h]

/-- C8: when a flag's `target_section` is empty or names no section of
the current plan, applying its suggestion writes nothing (the section
table is unchanged), emits the caller-visible warning, still marks
exactly that flag resolved while leaving every other flag row untouched,
and re-runs the status aggregation and the clearance recomputation. -/
theorem c8_apply_missing_target (sanitize : String → String) (s : DBState)
    (p : PatientRow) (flag : FlagRow) (content : String) (cp : PlanRow)
    (hcp : get_current_plan s p.patient_id = some cp)
    (hbad : flag.target_section = "" ∨
      ∀ kv ∈ get_plan_sections s cp.id, kv.1 ≠ flag.target_section) :
    ((apply_qc_suggestion sanitize s p flag content).1.sections =
      s.sections) ∧
    ((apply_qc_suggestion sanitize s p flag content).2 =
      [UiMsg.warning "⚠️ Target section not found. Flag marked as resolved without applying."]) ∧
    ((apply_qc_suggestion sanitize s p flag content).1.flags =
      s.flags.map (fun f =>
        if f.id == flag.id then { f with resolved := true } else f)) ∧
    (∀ row ∈ (apply_qc_suggestion sanitize s p flag content).1.patients,
      row.patient_id = p.patient_id →
      row.qc_status = qc_status_from_flags
        ((get_qc_flags (apply_qc_suggestion sanitize s p flag content).1
          p.patient_id (some false)).filter (fun f => f.id != flag.id))) ∧
    ((wf_lookup s p.patient_id).isSome = true →
      clearance_flag (apply_qc_suggestion sanitize s p flag content).1
          p.patient_id =
        check_qc_clearance (apply_qc_suggestion sanitize s p flag content).1
          p.patient_id) ∧
    (∀ (s' : DBState) (fid : Nat) (f : FlagRow), f ∈ s'.flags → f.id ≠ fid →
      f ∈ (resolve_qc_flag s' fid).flags) ∧
    (∀ (s' : DBState) (fid : Nat) (f' : FlagRow),
      f' ∈ (resolve_qc_flag s' fid).flags → f'.id ≠ fid → f' ∈ s'.flags) := by
  have hcond : (flag.target_section != "" &&
      (get_plan_sections s cp.id).any
        (fun kv => kv.1 == flag.target_section)) = false := by
    rcases hbad with hempty | hnone
    · simp [hempty]
    · have hany : (get_plan_sections s cp.id).any
          (fun kv => kv.1 == flag.target_section) = false :=
        List.any_eq_false.mpr (fun kv hkv => by simpa using hnone kv hkv)
      rw [hany, Bool.and_false]
  rw [apply_qc_suggestion]
  rw [hcp]
  dsimp only
  rw [if_neg (by rw [hcond]; exact Bool.false_ne_true)]
  dsimp only
  refine ⟨sections_recompute_clearance _ _, rfl,
    flags_recompute_clearance _ _, ?_, ?_, ?_, ?_⟩
  · intro row hrow hpidrow
    rw [patients_recompute_clearance] at hrow
    rw [update_patient_qc_status] at hrow
    dsimp only at hrow
    obtain ⟨r, hr, hrg⟩ := List.mem_map.mp hrow
    by_cases hmatch : r.patient_id == p.patient_id
    · rw [if_pos hmatch] at hrg
      rw [← hrg]
      dsimp only
      refine congrArg qc_status_from_flags ?_
      refine congrArg (List.filter (fun f : FlagRow => f.id != flag.id)) ?_
      have h1 : (recompute_clearance (update_patient_qc_status
          (resolve_qc_flag s flag.id) p.patient_id
          (qc_status_from_flags (List.filter (fun f => f.id != flag.id)
            (get_qc_flags (resolve_qc_flag s flag.id) p.patient_id
              (some false))))) p.patient_id).flags =
          (resolve_qc_flag s flag.id).flags := flags_recompute_clearance _ _
      exact (get_qc_flags_congr p.patient_id (some false) h1).symm
    · rw [if_neg hmatch] at hrg
      rw [← hrg] at hpidrow
      exact absurd (beq_iff_eq.mpr hpidrow) (by simpa using hmatch)
  · intro hw
    have hw3 : (wf_lookup (update_patient_qc_status
        (resolve_qc_flag s flag.id) p.patient_id
        (qc_status_from_flags ((get_qc_flags (resolve_qc_flag s flag.id)
          p.patient_id (some false)).filter (fun f => f.id != flag.id))))
        p.patient_id).isSome = true := by
      rw [wf_lookup_congr p.patient_id
        (show (update_patient_qc_status (resolve_qc_flag s flag.id)
          p.patient_id _).workflow = s.workflow from rfl)]
      exact hw
    rw [clearance_flag_recompute _ _ hw3]
    refine (check_qc_clearance_congr p.patient_id ?_).trans
      (check_qc_clearance_congr p.patient_id
        (flags_recompute_clearance _ _).symm)
    rfl
  · intro s' fid f hf hne
    rw [resolve_qc_flag]
    dsimp only
    refine List.mem_map.mpr ⟨f, hf, ?_⟩
    rw [if_neg (by simpa using hne)]
  · intro s' fid f' hf' hne
    rw [resolve_qc_flag] at hf'
    dsimp only at hf'
    obtain ⟨f, hf, hfg⟩ := List.mem_map.mp hf'
    by_cases hmatch : f.id == fid
    · rw [if_pos hmatch] at hfg
      exfalso
      apply hne
      rw [← hfg]
      exact beq_iff_eq.mp hmatch
    · rw [if_neg hmatch] at hfg
      rw [← hfg]
      exact hf

/-- Witness for C8: a flag targeting the nonexistent section `"Bogus"`
of a one-section plan is resolved without writing, with the warning
shown and the sections untouched. -/
theorem c8_apply_missing_target_witness :
    ((apply_qc_suggestion (fun c => c)
      { patients := [samplePatientYellow],
        plans := [{ id := 1, patient_id := "p1", version := 1,
                    language := "EN", reading_level := "Simplified",
                    include_caregiver := true, plan_content := "c",
                    is_current := true }],
        sections := [{ plan_id := 1, section_name := "Medications",
                       section_content := "Take aspirin." }],
        flags := [{ id := 7, patient_id := "p1", plan_id := 1,
                    flag_type := "Safety", severity := "YELLOW",
                    message := "m", suggested_fix := "fix",
                    target_section := "Bogus", resolved := false }],
        workflow := [sampleWorkflowRow], finalization := [],
        next_plan_id := 2, next_flag_id := 8 }
      samplePatientYellow
      { id := 7, patient_id := "p1", plan_id := 1, flag_type := "Safety",
        severity := "YELLOW", message := "m", suggested_fix := "fix",
        target_section := "Bogus", resolved := false }
      "new content").1.sections =
      [{ plan_id := 1, section_name := "Medications",
         section_content := "Take aspirin." }]) ∧
    ((apply_qc_suggestion (fun c => c)
      { patients := [samplePatientYellow],
        plans := [{ id := 1, patient_id := "p1", version := 1,
                    language := "EN", reading_level := "Simplified",
                    include_caregiver := true, plan_content := "c",
                    is_current := true }],
        sections := [{ plan_id := 1, section_name := "Medications",
                       section_content := "Take aspirin." }],
        flags := [{ id := 7, patient_id := "p1", plan_id := 1,
                    flag_type := "Safety", severity := "YELLOW",
                    message := "m", suggested_fix := "fix",
                    target_section := "Bogus", resolved := false }],
        workflow := [sampleWorkflowRow], finalization := [],
        next_plan_id := 2, next_flag_id := 8 }
      samplePatientYellow
      { id := 7, patient_id := "p1", plan_id := 1, flag_type := "Safety",
        severity := "YELLOW", message := "m", suggested_fix := "fix",
        target_section := "Bogus", resolved := false }
      "new content").2 =
      [UiMsg.warning "⚠️ Target section not found. Flag marked as resolved without applying."]) := by
  have h := c8_apply_missing_target (fun c => c)
    { patients := [samplePatientYellow],
      plans := [{ id := 1, patient_id := "p1", version := 1,
                  language := "EN", reading_level := "Simplified",
                  include_caregiver := true, plan_content := "c",
                  is_current := true }],
      sections := [{ plan_id := 1, section_name := "Medications",
                     section_content := "Take aspirin." }],
      flags := [{ id := 7, patient_id := "p1", plan_id := 1,
                  flag_type := "Safety", severity := "YELLOW",
                  message := "m", suggested_fix := "fix",
                  target_section := "Bogus", resolved := false }],
      workflow := [sampleWorkflowRow], finalization := [],
      next_plan_id := 2, next_flag_id := 8 }
    samplePatientYellow
    { id := 7, patient_id := "p1", plan_id := 1, flag_type := "Safety",
      severity := "YELLOW", message := "m", suggested_fix := "fix",
      target_section := "Bogus", resolved := false }
    "new content"
    { id := 1, patient_id := "p1", version := 1, language := "EN",
      reading_level := "Simplified", include_caregiver := true,
      plan_content := "c", is_current := true }
    (by decide) (Or.inr (by decide))
  exact ⟨h.1, h.2.1⟩

/-! ## C1: the clearance gate -/

theorem get_current_plan_congr {s s' : DBState} (pid : String)
    (h : s.plans = s'.plans) :
    get_current_plan s pid = get_current_plan s' pid := by
  rw [get_current_plan, get_current_plan, h]

/-- The Generate tab never touches `qc_clearance_done`: after the
initial QC pass the stored gate (of any patient) is exactly what it was
before. -/
theorem clearance_generate (s : DBState) (p : PatientRow)
    (lang reading : String) (caregiver : Bool)
    (sections : List (String × String)) (qf : List FlagData) (pid' : String) :
    clearance_flag
      (generate_plan_op s p lang reading caregiver sections qf).1 pid' =
      clearance_flag s pid' := by
  have hfold : ∀ (l : List (String × String)) (s0 : DBState) (plid : Nat),
      (l.foldl (fun acc kv => update_plan_section acc plid kv.1 kv.2)
        s0).workflow = s0.workflow := fun l s0 plid =>
    foldl_preserves (·.workflow) _
      (fun s1 x => workflow_update_plan_section s1 plid x.1 x.2) l s0
  have hfold2 : ∀ (l : List FlagData) (s0 : DBState) (pid : String)
      (plid : Nat),
      (l.foldl (fun acc fd => save_flag_data acc pid plid fd) s0).workflow =
        s0.workflow := fun l s0 pid plid =>
    foldl_preserves (·.workflow) (fun acc fd => save_flag_data acc pid plid fd)
      (fun s1 x => rfl) l s0
  rw [generate_plan_op]
  split
  all_goals dsimp only
  · rw [clearance_flag_update_workflow _ p.patient_id pid'
      (fun w => { w with ai_generation_done := true, qc_analysis_done := true })
      (fun w => rfl) (fun w => rfl)]
    exact clearance_flag_congr pid' (hfold _ _ _)
  · rw [clearance_flag_update_workflow _ p.patient_id pid'
      (fun w => { w with ai_generation_done := true, qc_analysis_done := true })
      (fun w => rfl) (fun w => rfl)]
    exact clearance_flag_congr pid' ((hfold2 _ _ _ _).trans (hfold _ _ _))

/-- After a QC re-run (which requires a current plan), the stored gate
equals the recomputed clearance of the final state. -/
theorem clearance_rerun (s : DBState) (p : PatientRow) (qf : List FlagData)
    (cp : PlanRow) (hplan : get_current_plan s p.patient_id = some cp)
    (hw : (wf_lookup s p.patient_id).isSome = true) :
    clearance_flag (rerun_qc_op s p qf).1 p.patient_id = true ↔
      ((get_current_plan (rerun_qc_op s p qf).1 p.patient_id).isSome = true ∧
       ∀ f ∈ (rerun_qc_op s p qf).1.flags, f.patient_id = p.patient_id →
         ¬f.resolved → f.severity ≠ "RED" ∧ f.severity ≠ "YELLOW") := by
  have hfold2 : ∀ (l : List FlagData) (s0 : DBState) (pid : String)
      (plid : Nat),
      (l.foldl (fun acc fd => save_flag_data acc pid plid fd) s0).workflow =
        s0.workflow := fun l s0 pid plid =>
    foldl_preserves (·.workflow) (fun acc fd => save_flag_data acc pid plid fd)
      (fun s1 x => rfl) l s0
  have hfold3 : ∀ (l : List FlagRow) (s0 : DBState),
      (l.foldl (fun acc f => resolve_qc_flag acc f.id) s0).workflow =
        s0.workflow := fun l s0 =>
    foldl_preserves (·.workflow) (fun acc f => resolve_qc_flag acc f.id)
      (fun s1 x => rfl) l s0
  have hfoldp2 : ∀ (l : List FlagData) (s0 : DBState) (pid : String)
      (plid : Nat),
      (l.foldl (fun acc fd => save_flag_data acc pid plid fd) s0).plans =
        s0.plans := fun l s0 pid plid =>
    foldl_preserves (·.plans) (fun acc fd => save_flag_data acc pid plid fd)
      (fun s1 x => rfl) l s0
  have hfoldp3 : ∀ (l : List FlagRow) (s0 : DBState),
      (l.foldl (fun acc f => resolve_qc_flag acc f.id) s0).plans =
        s0.plans := fun l s0 =>
    foldl_preserves (·.plans) (fun acc f => resolve_qc_flag acc f.id)
      (fun s1 x => rfl) l s0
  rw [rerun_qc_op, hplan]
  dsimp only
  set s3 := update_patient_qc_status
    (List.foldl (fun acc fd => save_flag_data acc p.patient_id cp.id fd)
      (List.foldl (fun acc f => resolve_qc_flag acc f.id) s
        (get_qc_flags s p.patient_id (some false))) qf)
    p.patient_id (qc_status_from_flag_data qf) with hs3
  have hws3 : s3.workflow = s.workflow := by
    rw [hs3]
    exact (hfold2 _ _ _ _).trans (hfold3 _ _)
  have hw3 : (wf_lookup s3 p.patient_id).isSome = true := by
    rw [wf_lookup_congr p.patient_id hws3]
    exact hw
  have hflags : (recompute_clearance s3 p.patient_id).flags = s3.flags :=
    flags_recompute_clearance _ _
  have hplans : (recompute_clearance s3 p.patient_id).plans = s.plans := by
    refine (plans_recompute_clearance _ _).trans ?_
    rw [hs3]
    exact (hfoldp2 _ _ _ _).trans (hfoldp3 _ _)
  rw [clearance_flag_recompute s3 p.patient_id hw3]
  rw [check_qc_clearance_congr p.patient_id hflags.symm]
  rw [check_qc_clearance_iff]
  constructor
  · intro hf
    refine ⟨?_, hf⟩
    rw [get_current_plan_congr p.patient_id hplans, hplan]
    rfl
  · intro hboth
    exact hboth.2

/-- After a single-flag resolution (which requires a current plan), the
stored gate equals the recomputed clearance of the final state. -/
theorem clearance_apply (sanitize : String → String) (s : DBState)
    (p : PatientRow) (flag : FlagRow) (content : String) (cp : PlanRow)
    (hplan : get_current_plan s p.patient_id = some cp)
    (hw : (wf_lookup s p.patient_id).isSome = true) :
    clearance_flag (apply_qc_suggestion sanitize s p flag content).1
        p.patient_id = true ↔
      ((get_current_plan (apply_qc_suggestion sanitize s p flag content).1
          p.patient_id).isSome = true ∧
       ∀ f ∈ (apply_qc_suggestion sanitize s p flag content).1.flags,
         f.patient_id = p.patient_id → ¬f.resolved →
         f.severity ≠ "RED" ∧ f.severity ≠ "YELLOW") := by
  rw [apply_qc_suggestion, hplan]
  dsimp only
  split
  · set s3 := update_patient_qc_status
      (resolve_qc_flag (update_plan_section s cp.id flag.target_section
        (sanitize content)) flag.id)
      p.patient_id (qc_status_from_flags
        ((get_qc_flags (resolve_qc_flag (update_plan_section s cp.id
          flag.target_section (sanitize content)) flag.id) p.patient_id
          (some false)).filter (fun f => f.id != flag.id))) with hs3
    have hws3 : s3.workflow = s.workflow := by
      rw [hs3]
      exact workflow_update_plan_section _ _ _ _
    have hw3 : (wf_lookup s3 p.patient_id).isSome = true := by
      rw [wf_lookup_congr p.patient_id hws3]
      exact hw
    have hflags : (recompute_clearance s3 p.patient_id).flags = s3.flags :=
      flags_recompute_clearance _ _
    have hplans : (recompute_clearance s3 p.patient_id).plans = s.plans := by
      refine (plans_recompute_clearance _ _).trans ?_
      rw [hs3]
      exact plans_update_plan_section _ _ _ _
    rw [clearance_flag_recompute s3 p.patient_id hw3]
    rw [check_qc_clearance_congr p.patient_id hflags.symm]
    rw [check_qc_clearance_iff]
    constructor
    · intro hf
      refine ⟨?_, hf⟩
      rw [get_current_plan_congr p.patient_id hplans, hplan]
      rfl
    · intro hboth
      exact hboth.2
  · set s3 := update_patient_qc_status (resolve_qc_flag s flag.id)
      p.patient_id (qc_status_from_flags
        ((get_qc_flags (resolve_qc_flag s flag.id) p.patient_id
          (some false)).filter (fun f => f.id != flag.id))) with hs3
    have hw3 : (wf_lookup s3 p.patient_id).isSome = true := by
      rw [wf_lookup_congr p.patient_id
        (show s3.workflow = s.workflow from rfl)]
      exact hw
    have hflags : (recompute_clearance s3 p.patient_id).flags = s3.flags :=
      flags_recompute_clearance _ _
    have hplans : (recompute_clearance s3 p.patient_id).plans = s.plans :=
      (plans_recompute_clearance _ _).trans rfl
    rw [clearance_flag_recompute s3 p.patient_id hw3]
    rw [check_qc_clearance_congr p.patient_id hflags.symm]
    rw [check_qc_clearance_iff]
    constructor
    · intro hf
      refine ⟨?_, hf⟩
      rw [get_current_plan_congr p.patient_id hplans, hplan]
      rfl
    · intro hboth
      exact hboth.2

/-- C1 as amended: a QC re-run and a single-flag resolution (each of
which requires a current plan to proceed) store a `qc_clearance_done`
gate that is true iff a current plan exists for the patient and no
unresolved flag of the patient has severity RED or YELLOW; the initial
QC pass of a Generate operation, however, does not recompute the gate —
it leaves the stored value (of every patient) exactly as it was. -/
theorem c1_clearance_gate_amended (sanitize : String → String) :
    (∀ (s : DBState) (p : PatientRow) (lang reading : String)
      (caregiver : Bool) (sections : List (String × String))
      (qf : List FlagData) (pid' : String),
      clearance_flag (execOp sanitize
        (Op.generate p lang reading caregiver sections qf) s).1 pid' =
        clearance_flag s pid') ∧
    (∀ (s : DBState) (p : PatientRow) (qf : List FlagData) (cp : PlanRow),
      get_current_plan s p.patient_id = some cp →
      (wf_lookup s p.patient_id).isSome = true →
      (clearance_flag (execOp sanitize (Op.rerunQc p qf) s).1
          p.patient_id = true ↔
        ((get_current_plan (execOp sanitize (Op.rerunQc p qf) s).1
            p.patient_id).isSome = true ∧
         ∀ f ∈ (execOp sanitize (Op.rerunQc p qf) s).1.flags,
           f.patient_id = p.patient_id → ¬f.resolved →
           f.severity ≠ "RED" ∧ f.severity ≠ "YELLOW"))) ∧
    (∀ (s : DBState) (p : PatientRow) (flag : FlagRow) (content : String)
      (cp : PlanRow),
      get_current_plan s p.patient_id = some cp →
      (wf_lookup s p.patient_id).isSome = true →
      (clearance_flag (execOp sanitize
          (Op.applySuggestion p flag content) s).1 p.patient_id = true ↔
        ((get_current_plan (execOp sanitize
            (Op.applySuggestion p flag content) s).1
            p.patient_id).isSome = true ∧
         ∀ f ∈ (execOp sanitize (Op.applySuggestion p flag content) s).1.flags,
           f.patient_id = p.patient_id → ¬f.resolved →
           f.severity ≠ "RED" ∧ f.severity ≠ "YELLOW"))) :=
  ⟨fun s p lang reading caregiver sections qf pid' =>
    clearance_generate s p lang reading caregiver sections qf pid',
   fun s p qf cp hplan hw => clearance_rerun s p qf cp hplan hw,
   fun s p flag content cp hplan hw =>
    clearance_apply sanitize s p flag content cp hplan hw⟩

/-- The six parsed sections of a generation result, as saved by the
Generate tab. -/
def sixDemoSections : List (String × String) :=
  [("Medications", "a"), ("Warning Signs", "b"), ("Mobility", "c"),
   ("Diet", "d"), ("Follow-Ups", "e"), ("Teach-Back", "f")]

/-- Counterexample to C1 as stated: a Generate operation whose QC pass
returns zero flags is a clearance-triggering event after which a current
plan exists and no unresolved RED/YELLOW flag exists, yet the stored
`qc_clearance_done` gate is still false — the Generate path never
recomputes it. -/
theorem c1_clearance_gate_counterexample :
    clearance_flag (execOp (fun c => c)
      (Op.generate samplePatientYellow "EN" "Simplified" true
        sixDemoSections []) sampleStateYellow).1 "p1" = false ∧
    (get_current_plan (execOp (fun c => c)
      (Op.generate samplePatientYellow "EN" "Simplified" true
        sixDemoSections []) sampleStateYellow).1 "p1").isSome = true ∧
    check_qc_clearance (execOp (fun c => c)
      (Op.generate samplePatientYellow "EN" "Simplified" true
        sixDemoSections []) sampleStateYellow).1 "p1" = true := by
  decide

/-- The plan row used in the clearance-recomputation scenarios. -/
def samplePlanRow : PlanRow :=
  { id := 1, patient_id := "p1", version := 1, language := "EN",
    reading_level := "Simplified", include_caregiver := true,
    plan_content := "c", is_current := true }

/-- A database holding the patient, a current plan, and the workflow
row. -/
def sampleStateWithPlan : DBState :=
  { patients := [samplePatientYellow], plans := [samplePlanRow],
    sections := [], flags := [], workflow := [sampleWorkflowRow],
    finalization := [], next_plan_id := 2, next_flag_id := 1 }

/-- Witness for the amended C1: a QC re-run that returns no flags stores
a true clearance gate. -/
theorem c1_clearance_gate_amended_witness :
    clearance_flag (execOp (fun c => c)
      (Op.rerunQc samplePatientYellow []) sampleStateWithPlan).1 "p1" =
      true := by
  have h := (c1_clearance_gate_amended (fun c => c)).2.1 sampleStateWithPlan
    samplePatientYellow [] samplePlanRow (by decide) (by decide)
  exact h.mpr (by decide)

end Discharge
